import Mathlib

/-!
Verification development for the scorched-earth game server.

The TypeScript source is shallowly embedded: JavaScript numbers are modelled
as real numbers (exact arithmetic), `Math.round x` as `⌊x + 1/2⌋`,
`Math.floor`/`Math.ceil` as `Int.floor`/`Int.ceil`, `Math.hypot` as the
euclidean norm, and in-place array mutation as explicit list passing.
Health points, heights, angles and positions are all JavaScript numbers, so
they are all modelled as `ℝ`; timestamps (`Date.now()` values) are modelled
as an explicit `now : ℝ` parameter.  Fallible lookups (`Map.get`,
`array[i] ?? d`) are modelled with `Option` and `List.getD`.
-/

open Classical

namespace SE

/-- Player slot, `"A" | "B"` in `shared/types.ts`. -/
inductive PlayerSlot
  | A
  | B
deriving DecidableEq

/-- Game phase union type from `shared/types.ts`. -/
inductive GamePhase
  | lobby
  | aiming
  | projectile_flight
  | round_end
  | match_end
  | paused_reconnect
deriving DecidableEq

/-- 2-d vector of JavaScript numbers. -/
structure Vector2 where
  x : ℝ
  y : ℝ

/-- `TankState` from `shared/types.ts`. -/
structure TankState where
  slot : PlayerSlot
  x : ℝ
  y : ℝ
  angleDeg : ℝ
  power : ℝ
  hp : ℝ
  connected : Bool

/-- `ProjectileState` from `shared/types.ts`. -/
structure ProjectileState where
  pos : Vector2
  vel : Vector2
  active : Bool
  owner : PlayerSlot

/-- `TerrainState` from `shared/types.ts`; `heights` has one entry per column. -/
structure TerrainState where
  width : ℕ
  height : ℝ
  heights : List ℝ

/-- `WindState` from `shared/types.ts`. -/
structure WindState where
  force : ℝ

/-- `GameState` from `shared/types.ts` (the match snapshot). -/
structure GameState where
  roomCode : String
  phase : GamePhase
  activeSlot : PlayerSlot
  turnEndsAt : Option ℝ
  terrain : TerrainState
  wind : WindState
  tanks : PlayerSlot → TankState
  projectile : Option ProjectileState
  winnerSlot : Option PlayerSlot

/-! ## Shared constants (`shared/types.ts`) -/

def WORLD_WIDTH : ℕ := 1000
def WORLD_HEIGHT : ℝ := 600
def TICK_RATE : ℝ := 60
def TURN_DURATION_MS : ℝ := 30000
def RECONNECT_GRACE_MS : ℝ := 30000
def gravity : ℝ := 130
def windAccelerationScale : ℝ := 1
def projectileSpeedScale : ℝ := 2.8
def tankRadius : ℝ := 12
def projectileRadius : ℝ := 4
def craterRadius : ℝ := 36
def blastRadius : ℝ := 84
def maxDamage : ℝ := 55
def MIN_ANGLE : ℝ := 5
def MAX_ANGLE : ℝ := 175
def MIN_POWER : ℝ := 20
def MAX_POWER : ℝ := 120
def STARTING_HP : ℝ := 100

/-! ## JavaScript number primitives -/

/-- `Math.round` on an exact real: round half toward positive infinity. -/
noncomputable def jsRound (r : ℝ) : ℤ := ⌊r + 1 / 2⌋

/-- `Math.floor`. -/
noncomputable def jsFloor (r : ℝ) : ℤ := ⌊r⌋

/-- `Math.ceil`. -/
noncomputable def jsCeil (r : ℝ) : ℤ := ⌈r⌉

/-- `Math.hypot dx dy`. -/
noncomputable def hypot (dx dy : ℝ) : ℝ := Real.sqrt (dx * dx + dy * dy)

/-- `clamp` from `game.ts`: `Math.max(min, Math.min(max, n))`, real version. -/
noncomputable def clampR (n lo hi : ℝ) : ℝ := max lo (min hi n)

/-- `clamp` specialised to integer arguments (array indices). -/
def clampI (n lo hi : ℤ) : ℤ := max lo (min hi n)

/-! ## Pure game functions (`game.ts`) -/

/-- `clampAngle` from `game.ts`. -/
noncomputable def clampAngle (value : ℝ) : ℝ := clampR value MIN_ANGLE MAX_ANGLE

/-- `clampPower` from `game.ts`. -/
noncomputable def clampPower (value : ℝ) : ℝ := clampR value MIN_POWER MAX_POWER

/-- `oppositeSlot` from `game.ts`. -/
def oppositeSlot : PlayerSlot → PlayerSlot
  | .A => .B
  | .B => .A

/-- `heightAt` from `game.ts`:
`index = clamp(Math.round(x), 0, terrain.width - 1); heights[index] ?? terrain.height`. -/
noncomputable def heightAt (t : TerrainState) (x : ℝ) : ℝ :=
  let index : ℤ := clampI (jsRound x) 0 ((t.width : ℤ) - 1)
  t.heights.getD index.toNat t.height

/-- One column of the first `generateTerrain` loop: the three seeded sine
waves added to the base line, rounded, then clamped to
`[Math.round(height * 0.3), height - 20]`. -/
noncomputable def rawColumn (seed : ℝ) (height : ℝ) (x : ℕ) : ℝ :=
  let base := height * 0.62
  let waveA := Real.sin (((x : ℝ) + seed * 0.13) * 0.009) * 42
  let waveB := Real.sin (((x : ℝ) + seed * 0.37) * 0.021) * 26
  let waveC := Real.sin (((x : ℝ) + seed * 0.91) * 0.043) * 12
  clampR ((jsRound (base + waveA + waveB + waveC) : ℤ) : ℝ)
    ((jsRound (height * 0.3) : ℤ) : ℝ) (height - 20)

/-- One step of the smoothing pass of `generateTerrain`:
`heights[x] = Math.round(((heights[x-1] ?? heights[x] ?? base) + (heights[x] ?? base) + (heights[x+1] ?? heights[x] ?? base)) / 3)`. -/
noncomputable def smoothAt (base : ℝ) (hs : List ℝ) (x : ℕ) : List ℝ :=
  let prev := hs.getD (x - 1) (hs.getD x base)
  let current := hs.getD x base
  let next := hs.getD (x + 1) (hs.getD x base)
  hs.set x ((jsRound ((prev + current + next) / 3) : ℤ) : ℝ)

/-- The smoothing loop `for (x = 1; x < width - 1; x += 1)`, running `fuel`
iterations starting at column `x`. -/
noncomputable def smoothLoop (base : ℝ) : ℕ → ℕ → List ℝ → List ℝ
  | 0, _, hs => hs
  | fuel + 1, x, hs => smoothLoop base fuel (x + 1) (smoothAt base hs x)

/-- `generateTerrain` from `game.ts`. -/
noncomputable def generateTerrain (seed : ℝ) (width : ℕ) (height : ℝ) : TerrainState :=
  let first := (List.range width).map (rawColumn seed height)
  ⟨width, height, smoothLoop (height * 0.62) (width - 2) 1 first⟩

/-- `tankYForX` from `game.ts`. -/
noncomputable def tankYForX (s : GameState) (x : ℝ) : ℝ :=
  heightAt s.terrain x - tankRadius - 1

/-- `updateTankGrounding` from `game.ts` (re-grounds tank A, then tank B). -/
noncomputable def updateTankGrounding (s : GameState) : GameState :=
  let s1 := { s with
    tanks := Function.update s.tanks .A { s.tanks .A with y := tankYForX s (s.tanks .A).x } }
  { s1 with
    tanks := Function.update s1.tanks .B { s1.tanks .B with y := tankYForX s1 (s1.tanks .B).x } }

/-- `createInitialState` from `game.ts`; `generateTerrain` is called with its
default `WORLD_WIDTH`/`WORLD_HEIGHT` arguments, and both tanks are grounded
right after construction exactly as the source does. -/
noncomputable def createInitialState (roomCode : String) (seed : ℝ)
    (startingSlot : PlayerSlot) : GameState :=
  let terrain := generateTerrain seed WORLD_WIDTH WORLD_HEIGHT
  let st0 : GameState :=
    { roomCode := roomCode
      phase := .lobby
      activeSlot := startingSlot
      turnEndsAt := none
      terrain := terrain
      wind := ⟨0⟩
      tanks := fun s =>
        match s with
        | .A => ⟨.A, ((jsRound ((terrain.width : ℝ) * 0.18) : ℤ) : ℝ), 0, 45, 72, STARTING_HP, false⟩
        | .B => ⟨.B, ((jsRound ((terrain.width : ℝ) * 0.82) : ℤ) : ℝ), 0, 135, 72, STARTING_HP, false⟩
      projectile := none
      winnerSlot := none }
  updateTankGrounding st0

/-- `pickWind` from `game.ts`, applied to one draw `r` of the supplied RNG:
`Math.round(((r * 2 - 1) * 24) * 10) / 10`. -/
noncomputable def pickWind (r : ℝ) : ℝ :=
  ((jsRound ((r * 2 - 1) * 24 * 10) : ℤ) : ℝ) / 10

/-- `spawnProjectile` from `game.ts`. -/
noncomputable def spawnProjectile (s : GameState) (slot : PlayerSlot) : GameState :=
  let tank := s.tanks slot
  let angle := clampAngle tank.angleDeg
  let power := clampPower tank.power
  let launchSpeed := power * projectileSpeedScale
  let rad := angle * Real.pi / 180
  let muzzleDistance := tankRadius + 5
  let proj : ProjectileState :=
    { pos := ⟨tank.x + Real.cos rad * muzzleDistance, tank.y - Real.sin rad * muzzleDistance⟩
      vel := ⟨Real.cos rad * launchSpeed, -(Real.sin rad) * launchSpeed⟩
      active := true
      owner := slot }
  { s with projectile := some proj }

/-- `ImpactResult` from `game.ts`. -/
structure ImpactResult where
  point : Vector2

/-- `stepProjectile` from `game.ts`.  The source mutates
`state.projectile` in place and returns the impact (or `null`); here the
updated state is returned together with the optional impact. -/
noncomputable def stepProjectile (s : GameState) (dtSeconds : ℝ) :
    GameState × Option ImpactResult :=
  match s.projectile with
  | none => (s, none)
  | some projectile =>
    if projectile.active = false then (s, none)
    else
      let vel : Vector2 :=
        ⟨projectile.vel.x + s.wind.force * windAccelerationScale * dtSeconds,
         projectile.vel.y + gravity * dtSeconds⟩
      let pos : Vector2 :=
        ⟨projectile.pos.x + vel.x * dtSeconds, projectile.pos.y + vel.y * dtSeconds⟩
      let s' := { s with projectile := some ({ projectile with vel := vel, pos := pos }) }
      if hypot (pos.x - (s.tanks .A).x) (pos.y - (s.tanks .A).y) ≤ tankRadius + projectileRadius
          ∨ hypot (pos.x - (s.tanks .B).x) (pos.y - (s.tanks .B).y)
              ≤ tankRadius + projectileRadius then
        (s', some ⟨pos⟩)
      else
        let terrainY := heightAt s.terrain pos.x
        if pos.y + projectileRadius ≥ terrainY then
          (s', some ⟨⟨pos.x, terrainY⟩⟩)
        else if pos.x < 0 ∨ (s.terrain.width : ℝ) ≤ pos.x
            ∨ s.terrain.height + 100 < pos.y ∨ pos.y < -100 then
          (s', some ⟨⟨clampR pos.x 0 ((s.terrain.width : ℝ) - 1),
                      clampR pos.y 0 s.terrain.height⟩⟩)
        else (s', none)

/-- The body of the `deformTerrain` loop at column `x`:
raise the stored height to the crater profile when the profile is deeper. -/
noncomputable def deformColumn (height : ℝ) (impact : Vector2) (hs : List ℝ) (x : ℤ) :
    List ℝ :=
  let dx := (x : ℝ) - impact.x
  let chord := Real.sqrt (max 0 (craterRadius * craterRadius - dx * dx))
  let targetHeight : ℤ := jsRound (impact.y + chord)
  if (targetHeight : ℝ) > hs.getD x.toNat height then
    hs.set x.toNat (clampR (targetHeight : ℝ) 0 height)
  else hs

/-- The `deformTerrain` loop `for (x = start; x <= end; x += 1)`, running
`n` iterations starting at column `x`. -/
noncomputable def deformLoop (height : ℝ) (impact : Vector2) : ℕ → ℤ → List ℝ → List ℝ
  | 0, _, hs => hs
  | n + 1, x, hs => deformLoop height impact n (x + 1) (deformColumn height impact hs x)

/-- `deformTerrain` from `game.ts`. -/
noncomputable def deformTerrain (s : GameState) (impact : Vector2) : GameState :=
  let start := clampI (jsFloor (impact.x - craterRadius)) 0 ((s.terrain.width : ℤ) - 1)
  let stop := clampI (jsCeil (impact.x + craterRadius)) 0 ((s.terrain.width : ℤ) - 1)
  { s with terrain := { s.terrain with
      heights := deformLoop s.terrain.height impact (stop + 1 - start).toNat start
        s.terrain.heights } }

/-- `DamageResult` from `game.ts`. -/
structure DamageResult where
  slot : PlayerSlot
  amount : ℤ
  hpAfter : ℝ

/-- The distance from a tank to the impact measured by `applyBlastDamage`:
`Math.hypot(tank.x - impact.x, tank.y - impact.y)`. -/
noncomputable def blastDistance (s : GameState) (impact : Vector2) (slot : PlayerSlot) : ℝ :=
  hypot ((s.tanks slot).x - impact.x) ((s.tanks slot).y - impact.y)

/-- The damage dealt at distance `d` by `applyBlastDamage`:
`Math.max(1, Math.round(maxDamage * (1 - d / blastRadius)))`. -/
noncomputable def damageFor (d : ℝ) : ℤ :=
  max 1 (jsRound (maxDamage * (1 - d / blastRadius)))

/-- One iteration of the `applyBlastDamage` loop for `slot`. -/
noncomputable def blastTank (impact : Vector2) (acc : GameState × List DamageResult)
    (slot : PlayerSlot) : GameState × List DamageResult :=
  let s := acc.1
  let tank := s.tanks slot
  let distance := hypot (tank.x - impact.x) (tank.y - impact.y)
  if distance > blastRadius then acc
  else
    let falloff := 1 - distance / blastRadius
    let damage : ℤ := max 1 (jsRound (maxDamage * falloff))
    let hpAfter := max 0 (tank.hp - (damage : ℝ))
    ({ s with tanks := Function.update s.tanks slot { tank with hp := hpAfter } },
     acc.2 ++ [⟨slot, damage, hpAfter⟩])

/-- `applyBlastDamage` from `game.ts`: the loop body runs for slot `A`, then
slot `B`, mutating the state and accumulating the result list. -/
noncomputable def applyBlastDamage (s : GameState) (impact : Vector2) :
    GameState × List DamageResult :=
  blastTank impact (blastTank impact (s, []) .A) .B

/-- `resolveWinner` from `game.ts`. -/
noncomputable def resolveWinner (s : GameState) (lastShooter : PlayerSlot) :
    Option PlayerSlot :=
  let hpA := (s.tanks .A).hp
  let hpB := (s.tanks .B).hp
  if hpA > 0 ∧ hpB > 0 then none
  else if hpA ≤ 0 ∧ hpB ≤ 0 then some (oppositeSlot lastShooter)
  else if hpA > 0 then some .A else some .B

/-- `enterTurn` from `game.ts`; `Date.now()` is the explicit `now`. -/
noncomputable def enterTurn (s : GameState) (slot : PlayerSlot) (wind : ℝ) (now : ℝ) :
    GameState :=
  { s with phase := .aiming, activeSlot := slot, wind := ⟨wind⟩,
           turnEndsAt := some (now + TURN_DURATION_MS) }

/-- `setPhase` from `game.ts`: clears `turnEndsAt` whenever the new phase is
not `aiming`. -/
def setPhase (s : GameState) (phase : GamePhase) : GameState :=
  { s with phase := phase,
           turnEndsAt := if phase ≠ .aiming then none else s.turnEndsAt }

/-- Velocity after one semi-implicit Euler step, written from the claim:
velocity is updated by `(wind.force * windAccelerationScale * dt, gravity * dt)`. -/
noncomputable def stepVel (s : GameState) (dt : ℝ) (p : ProjectileState) : Vector2 :=
  ⟨p.vel.x + s.wind.force * windAccelerationScale * dt, p.vel.y + gravity * dt⟩

/-- Position after one step, written from the claim: position is updated by
the new velocity times `dt`. -/
noncomputable def stepPos (s : GameState) (dt : ℝ) (p : ProjectileState) : Vector2 :=
  ⟨p.pos.x + (stepVel s dt p).x * dt, p.pos.y + (stepVel s dt p).y * dt⟩

/-- Claim-side collision condition: the distance from the projectile
position to either tank center is at most `tankRadius + projectileRadius`. -/
noncomputable def tankHitCond (s : GameState) (q : Vector2) : Prop :=
  hypot (q.x - (s.tanks .A).x) (q.y - (s.tanks .A).y) ≤ tankRadius + projectileRadius ∨
  hypot (q.x - (s.tanks .B).x) (q.y - (s.tanks .B).y) ≤ tankRadius + projectileRadius

/-- Claim-side terrain-crossing condition: the projectile bottom is at or
below the terrain height under its column. -/
noncomputable def terrainHitCond (s : GameState) (q : Vector2) : Prop :=
  q.y + projectileRadius ≥ heightAt s.terrain q.x

/-- Claim-side out-of-bounds condition: `x` outside `[0, width)` or `y`
more than 100 beyond the world height in either direction. -/
noncomputable def outOfBoundsCond (s : GameState) (q : Vector2) : Prop :=
  q.x < 0 ∨ (s.terrain.width : ℝ) ≤ q.x ∨ s.terrain.height + 100 < q.y ∨ q.y < -100

/-- Spec-side description of one projectile step, written from claim C1:
integrate semi-implicitly, then test tank collision, then terrain crossing,
then out-of-bounds, reporting the impact point each test dictates. -/
noncomputable def stepSpec (s : GameState) (dt : ℝ) (p : ProjectileState) :
    GameState × Option ImpactResult :=
  let q := stepPos s dt p
  ({ s with projectile := some ({ p with vel := stepVel s dt p, pos := q }) },
   if tankHitCond s q then some ⟨q⟩
   else if terrainHitCond s q then some ⟨⟨q.x, heightAt s.terrain q.x⟩⟩
   else if outOfBoundsCond s q then
     some ⟨⟨clampR q.x 0 ((s.terrain.width : ℝ) - 1), clampR q.y 0 s.terrain.height⟩⟩
   else none)

/-! ## Deterministic RNG (`random.ts`) -/

/-- One call of the closure returned by `mulberry32`, on the unsigned 32-bit
view of its internal state `t`: returns the new state and the raw 32-bit
output.  JavaScript's `Math.imul`, `^`, `|`, `>>>` and `+`-then-coerce all
agree with arithmetic modulo `2^32` on these unsigned views. -/
def m32next (t : ℕ) : ℕ × ℕ :=
  let t' := (t + 0x6d2b79f5) % 4294967296
  let a := ((t' ^^^ (t' >>> 15)) * (t' ||| 1)) % 4294967296
  let m := ((a ^^^ (a >>> 7)) * (a ||| 61)) % 4294967296
  let b := a ^^^ ((a + m) % 4294967296)
  (t', b ^^^ (b >>> 14))

/-- The internal state of a `mulberry32` stream after `n` calls
(`seed >>> 0` initially). -/
def m32state (seed : ℕ) : ℕ → ℕ
  | 0 => seed % 4294967296
  | n + 1 => (m32next (m32state seed n)).1

/-- The `n`-th value (0-based) drawn from `mulberry32 seed`: the 32-bit
output divided by `4294967296`. -/
noncomputable def m32out (seed : ℕ) (n : ℕ) : ℝ :=
  (((m32next (m32state seed n)).2 : ℕ) : ℝ) / 4294967296

/-- Alphabet of `randomCode` in `random.ts`. -/
def codeChars : List Char := "ABCDEFGHJKMNPQRSTUVWXYZ23456789".toList

/-- Alphabet of `randomToken` in `random.ts`. -/
def tokenChars : List Char := "abcdefghijklmnopqrstuvwxyz0123456789".toList

/-- `chars[Math.floor(r * chars.length)] ?? fallback`: an in-range index
reads the alphabet, anything else yields the fallback character. -/
noncomputable def drawChar (alphabet : List Char) (fallback : Char) (r : ℝ) : Char :=
  let i := jsFloor (r * (alphabet.length : ℝ))
  if h : 0 ≤ i ∧ i.toNat < alphabet.length then alphabet.get ⟨i.toNat, h.2⟩ else fallback

/-- `randomCode` from `random.ts`: five draws starting at stream index `idx`. -/
noncomputable def randomCode (rng : ℕ → ℝ) (idx : ℕ) : String :=
  String.mk ((List.range 5).map (fun i => drawChar codeChars 'A' (rng (idx + i))))

/-- `randomToken` from `random.ts`: twenty-four draws starting at `idx`. -/
noncomputable def randomToken (rng : ℕ → ℝ) (idx : ℕ) : String :=
  String.mk ((List.range 24).map (fun i => drawChar tokenChars '0' (rng (idx + i))))

/-! ## Room lifecycle (`room-manager.ts`)

The manager's maps are modelled as association lists, timers as
nondeterministically-firing operations (each timer callback becomes an
operation applied at an arbitrary time `now`), and each room's
`mulberry32` stream as its seed plus the count of draws consumed so far. -/

/-- `RoomPlayer` from `room-manager.ts`. -/
structure RoomPlayer where
  slot : PlayerSlot
  token : String
  socketId : Option String
  connected : Bool

/-- `PauseSnapshot` from `room-manager.ts`. -/
structure PauseSnapshot where
  phaseBeforePause : GamePhase
  remainingTurnMs : Option ℝ

/-- `Room` from `room-manager.ts`; the timer handles are not part of the
model (timer firings are modelled as operations), and `random` is the pair
`(rngSeed, rngIdx)`. -/
structure Room where
  code : String
  seed : ℝ
  rngSeed : ℕ
  rngIdx : ℕ
  nextStartingSlot : PlayerSlot
  state : GameState
  players : PlayerSlot → Option RoomPlayer
  rematchVotes : PlayerSlot → Bool
  pauseSnapshot : Option PauseSnapshot

/-- `SocketBinding` from `room-manager.ts`. -/
structure SocketBinding where
  roomCode : String
  slot : PlayerSlot

/-- The mutable state of `RoomManager`: the room registry, the socket index
and the manager's own RNG stream. -/
structure ManagerState where
  rooms : List (String × Room)
  bindings : List (String × SocketBinding)
  rng : ℕ → ℝ
  rngIdx : ℕ

/-- `JoinResult` from `room-manager.ts`. -/
structure JoinResult where
  room : Room
  slot : PlayerSlot
  reconnectToken : String
  started : Bool

/-- `Map.get`. -/
def mapGet {α : Type} (l : List (String × α)) (k : String) : Option α :=
  (l.find? (fun p => p.1 == k)).map (fun p => p.2)

/-- `Map.set`: overwrite the present entry, else append. -/
def mapSet {α : Type} (l : List (String × α)) (k : String) (v : α) : List (String × α) :=
  if (l.find? (fun p => p.1 == k)).isSome then
    l.map (fun p => if p.1 == k then (k, v) else p)
  else l ++ [(k, v)]

/-- `Map.delete`. -/
def mapDelete {α : Type} (l : List (String × α)) (k : String) : List (String × α) :=
  l.filter (fun p => !(p.1 == k))

/-- `findDisconnectedSlot` from `room-manager.ts`. -/
def findDisconnectedSlot (room : Room) : Option PlayerSlot :=
  match room.players .A with
  | none => some .A
  | some p =>
    if p.connected = false then some .A
    else
      match room.players .B with
      | none => some .B
      | some q => if q.connected = false then some .B else none

/-- Set the `connected` flag of one tank in the snapshot
(`state.tanks[slot].connected = flag` in the source). -/
noncomputable def setTankConnected (st : GameState) (slot : PlayerSlot) (flag : Bool) : GameState :=
  let tank := { st.tanks slot with connected := flag }
  { st with tanks := Function.update st.tanks slot tank }

/-- `syncTankConnections` from `room-manager.ts`. -/
noncomputable def syncTankConnections (room : Room) (st : GameState) : GameState :=
  let flag := fun slot => match room.players slot with | some p => p.connected | none => false
  { st with tanks := fun slot => { st.tanks slot with connected := flag slot } }

/-- `startMatch` from `room-manager.ts`: the room stream supplies the new
seed and the opening wind (two draws). -/
noncomputable def startMatch (room : Room) (now : ℝ) : Room :=
  let startingSlot := room.nextStartingSlot
  let seed' : ℤ := jsFloor (m32out room.rngSeed room.rngIdx * 1000000000)
  let st0 := createInitialState room.code (seed' : ℝ) startingSlot
  let st1 := syncTankConnections room st0
  let wind := pickWind (m32out room.rngSeed (room.rngIdx + 1))
  { room with
    nextStartingSlot := oppositeSlot room.nextStartingSlot
    seed := (seed' : ℝ)
    state := enterTurn st1 startingSlot wind now
    rematchVotes := fun _ => false
    pauseSnapshot := none
    rngIdx := room.rngIdx + 2 }

/-- `fireForSlot` from `room-manager.ts` (the simulation interval it starts
is modelled by the separate `simTick` operation). -/
noncomputable def fireForSlot (room : Room) (slot : PlayerSlot) : Room :=
  if room.state.phase ≠ .aiming then room
  else { room with state := spawnProjectile (setPhase room.state .projectile_flight) slot }

/-- `resolveImpact` from `room-manager.ts` (its inter-round `setTimeout`
body is the separate `turnAdvance` operation). -/
noncomputable def resolveImpact (room : Room) (point : Vector2) : Room :=
  let shooter :=
    match room.state.projectile with
    | some p => p.owner
    | none => room.state.activeSlot
  let st1 := { room.state with projectile := none }
  let st2 := deformTerrain st1 point
  let st3 := updateTankGrounding st2
  let st4 := (applyBlastDamage st3 point).1
  match resolveWinner st4 shooter with
  | some winner =>
    let st5 := { st4 with phase := GamePhase.match_end, winnerSlot := some winner, turnEndsAt := none }
    { room with state := st5, rematchVotes := fun _ => false }
  | none => { room with state := setPhase st4 .round_end }

/-- One firing of the simulation interval from `fireForSlot`/resume:
step the projectile and resolve the impact when one is reported. -/
noncomputable def simTick (room : Room) : Room :=
  let stepped := stepProjectile room.state (1 / TICK_RATE)
  let room1 := { room with state := stepped.1 }
  match stepped.2 with
  | none => room1
  | some impact => resolveImpact room1 impact.point

/-- The inter-round `setTimeout` body inside `resolveImpact`: advance the
turn to the opposing slot unless the room has since paused or ended. -/
noncomputable def turnAdvance (room : Room) (now : ℝ) : Room :=
  if room.state.phase = .paused_reconnect ∨ room.state.phase = .match_end then room
  else
    let next := oppositeSlot room.state.activeSlot
    let wind := pickWind (m32out room.rngSeed room.rngIdx)
    { room with state := enterTurn room.state next wind now, rngIdx := room.rngIdx + 1 }

/-- `pauseForReconnect` from `room-manager.ts` (the reconnect grace timer it
starts is the separate `graceForfeit` operation). -/
noncomputable def pauseForReconnect (room : Room) (now : ℝ) : Room :=
  if room.state.phase = .paused_reconnect ∨ room.state.phase = .match_end then room
  else
    let remainingTurnMs : Option ℝ :=
      if room.state.phase = .aiming then
        match room.state.turnEndsAt with
        | some t => some (max 0 (t - now))
        | none => none
      else none
    let st := { room.state with phase := GamePhase.paused_reconnect, turnEndsAt := none }
    { room with pauseSnapshot := some ⟨room.state.phase, remainingTurnMs⟩, state := st }

/-- The reconnect grace timer callback from `pauseForReconnect`: forfeit in
favor of the still-connected player. -/
noncomputable def graceForfeit (room : Room) : Room :=
  if room.state.phase ≠ .paused_reconnect then room
  else
    match findDisconnectedSlot room with
    | none => room
    | some disconnected =>
      let st := { room.state with phase := GamePhase.match_end, winnerSlot := some (oppositeSlot disconnected) }
      { room with state := st, rematchVotes := fun _ => false }

/-- `resumeFromPauseIfReady` from `room-manager.ts`. -/
noncomputable def resumeFromPauseIfReady (room : Room) (now : ℝ) : Room :=
  if room.state.phase ≠ .paused_reconnect then room
  else if (findDisconnectedSlot room).isSome then room
  else
    match room.pauseSnapshot with
    | none =>
      let st1 := { room.state with phase := GamePhase.aiming }
      let st2 :=
        if st1.turnEndsAt = none then { st1 with turnEndsAt := some (now + TURN_DURATION_MS) }
        else st1
      { room with pauseSnapshot := none, state := st2 }
    | some snapshot =>
      let st1 := { room.state with phase := snapshot.phaseBeforePause }
      if snapshot.phaseBeforePause = .aiming then
        let remaining := snapshot.remainingTurnMs.getD TURN_DURATION_MS
        let st2 := { st1 with turnEndsAt := some (now + remaining) }
        { room with pauseSnapshot := none, state := st2 }
      else if snapshot.phaseBeforePause = .round_end then
        let next := oppositeSlot st1.activeSlot
        let wind := pickWind (m32out room.rngSeed room.rngIdx)
        { room with pauseSnapshot := none, state := enterTurn st1 next wind now, rngIdx := room.rngIdx + 1 }
      else
        { room with pauseSnapshot := none, state := st1 }

/-- Reconnect-token reclaim inside `joinRoom`: restore the connection handle
and connected flags of an existing slot. -/
noncomputable def connectPlayer (room : Room) (slot : PlayerSlot) (socketId : String) : Room :=
  let updatePl := fun (p : RoomPlayer) => { p with socketId := some socketId, connected := true }
  let players := fun s => if s = slot then (room.players s).map updatePl else room.players s
  { room with players := players, state := setTankConnected room.state slot true }

/-- Fresh slot assignment inside `joinRoom`: the token is 24 draws of the
room stream. -/
noncomputable def joinFresh (room : Room) (slot : PlayerSlot) (socketId : String) : Room :=
  let token := randomToken (m32out room.rngSeed) room.rngIdx
  let players := fun s => if s = slot then some (⟨slot, token, some socketId, true⟩ : RoomPlayer) else room.players s
  { room with rngIdx := room.rngIdx + 24, players := players, state := setTankConnected room.state slot true }

/-- The disconnect bookkeeping of `leaveBySocketId`: clear the connection
handle and connected flags of a slot. -/
noncomputable def disconnectPlayer (room : Room) (slot : PlayerSlot) : Room :=
  let updatePl := fun (p : RoomPlayer) => { p with socketId := none, connected := false }
  let players := fun s => if s = slot then (room.players s).map updatePl else room.players s
  { room with players := players, state := setTankConnected room.state slot false }

/-- `requestRematch`'s vote recording. -/
noncomputable def addVote (room : Room) (slot : PlayerSlot) : Room :=
  { room with rematchVotes := fun s => if s = slot then true else room.rematchVotes s }

/-- `rematchVotes.delete` in `leaveBySocketId`. -/
noncomputable def removeVote (room : Room) (slot : PlayerSlot) : Room :=
  { room with rematchVotes := fun s => if s = slot then false else room.rematchVotes s }

/-- The snapshot mutation of `applyAim`: store the clamped angle and power
on the caller's tank. -/
noncomputable def applyAimRoom (room : Room) (slot : PlayerSlot) (angleDeg power : ℝ) : Room :=
  let tank := { room.state.tanks slot with angleDeg := clampAngle angleDeg, power := clampPower power }
  let st := { room.state with tanks := Function.update room.state.tanks slot tank }
  { room with state := st }

/-- The room built by `createRoom`: slot A claimed by the creator, a fresh
24-character token drawn from the room stream, snapshot in the lobby. -/
noncomputable def initialRoom (code : String) (seed : ℤ) (socketId : String) : Room :=
  let seedNat := (seed.emod 4294967296).toNat
  let token := randomToken (m32out seedNat) 0
  let st := createInitialState code (seed : ℝ) .A
  { code := code
    seed := (seed : ℝ)
    rngSeed := seedNat
    rngIdx := 24
    nextStartingSlot := .A
    state := setTankConnected st .A true
    players := fun s =>
      match s with
      | .A => some ⟨.A, token, some socketId, true⟩
      | .B => none
    rematchVotes := fun _ => false
    pauseSnapshot := none }

/-- `destroyRoomIfEmpty` from `room-manager.ts`, acting on the registry:
delete the room when no player is connected, otherwise persist it. -/
noncomputable def destroyRoomIfEmpty (rooms : List (String × Room)) (room : Room) :
    List (String × Room) :=
  let hasConnected :=
    (match room.players .A with | some p => p.connected | none => false) ||
    (match room.players .B with | some p => p.connected | none => false)
  if hasConnected then mapSet rooms room.code room else mapDelete rooms room.code

/-- `leaveBySocketId` from `room-manager.ts`. -/
noncomputable def leaveBySocketId (m : ManagerState) (socketId : String) (now : ℝ) :
    ManagerState :=
  match mapGet m.bindings socketId with
  | none => m
  | some binding =>
    let m1 : ManagerState := { m with bindings := mapDelete m.bindings socketId }
    match mapGet m1.rooms binding.roomCode with
    | none => m1
    | some room =>
      match room.players binding.slot with
      | none => m1
      | some player =>
        if player.socketId ≠ some socketId then m1
        else
          let room1 := disconnectPlayer room binding.slot
          if room1.state.phase = .lobby then
            { m1 with rooms := destroyRoomIfEmpty m1.rooms room1 }
          else if room1.state.phase = .match_end then
            let room2 := removeVote room1 binding.slot
            { m1 with rooms := destroyRoomIfEmpty m1.rooms room2 }
          else
            { m1 with rooms := mapSet m1.rooms room1.code (pauseForReconnect room1 now) }

/-- `${Math.floor(r * 99999)}`.padStart(5, "0"). -/
def padStart5 (s : String) : String :=
  String.mk (List.replicate (5 - s.length) '0') ++ s

/-- The retry loop of `createUniqueCode`: up to `fuel` random codes, each
checked against the registry; when all collide, the numeric fallback, which
is not collision-checked.  Returns the code and the next stream index. -/
noncomputable def createUniqueCodeGo (codes : List String) (rng : ℕ → ℝ) :
    ℕ → ℕ → String × ℕ
  | 0, idx => (padStart5 (toString (jsFloor (rng idx * 99999))), idx + 1)
  | fuel + 1, idx =>
    let code := randomCode rng idx
    if codes.contains code then createUniqueCodeGo codes rng fuel (idx + 5)
    else (code, idx + 5)

/-- `createUniqueCode` from `room-manager.ts`: 1000 bounded retries, then
the numeric fallback. -/
noncomputable def createUniqueCode (codes : List String) (rng : ℕ → ℝ) (idx : ℕ) :
    String × ℕ :=
  createUniqueCodeGo codes rng 1000 idx

/-- The reconnect token of slot A of a room. -/
def roomTokenA (room : Room) : String :=
  match room.players .A with
  | some p => p.token
  | none => ""

/-- `createRoom` from `room-manager.ts`. -/
noncomputable def createRoom (m : ManagerState) (socketId : String) (now : ℝ) :
    ManagerState × JoinResult :=
  let m1 := leaveBySocketId m socketId now
  let drawn := createUniqueCode (m1.rooms.map (fun p => p.1)) m1.rng m1.rngIdx
  let seed : ℤ := jsFloor (m1.rng drawn.2 * 1000000000)
  let room := initialRoom drawn.1 seed socketId
  let m2 : ManagerState :=
    { m1 with
      rooms := mapSet m1.rooms drawn.1 room
      bindings := mapSet m1.bindings socketId ⟨drawn.1, .A⟩
      rngIdx := drawn.2 + 1 }
  (m2, ⟨room, .A, roomTokenA room, false⟩)

/-- `applyAim` from `room-manager.ts`: reject unless the socket is bound to
a room in the aiming phase whose active slot is the caller's; on success
store the clamped aim values. -/
noncomputable def applyAim (m : ManagerState) (socketId : String) (angleDeg power : ℝ) :
    ManagerState × Option Room :=
  match mapGet m.bindings socketId with
  | none => (m, none)
  | some info =>
    match mapGet m.rooms info.roomCode with
    | none => (m, none)
    | some room =>
      if room.state.phase ≠ .aiming then (m, none)
      else if room.state.activeSlot ≠ info.slot then (m, none)
      else
        let room' := applyAimRoom room info.slot angleDeg power
        ({ m with rooms := mapSet m.rooms info.roomCode room' }, some room')

/-- The room states reachable through the lifecycle operations.  An
over-approximation of the server's behaviour: every operation (including
every timer callback) may fire at any time with arbitrary parameters, so
any invariant of this relation holds of the real server. -/
inductive RoomReachable : Room → Prop
  | created (code : String) (seed : ℤ) (socketId : String) :
      RoomReachable (initialRoom code seed socketId)
  | start (room : Room) (now : ℝ) :
      RoomReachable room → RoomReachable (startMatch room now)
  | fire (room : Room) (slot : PlayerSlot) :
      RoomReachable room → RoomReachable (fireForSlot room slot)
  | tick (room : Room) :
      RoomReachable room → RoomReachable (simTick room)
  | impactOp (room : Room) (point : Vector2) :
      RoomReachable room → RoomReachable (resolveImpact room point)
  | advance (room : Room) (now : ℝ) :
      RoomReachable room → RoomReachable (turnAdvance room now)
  | pause (room : Room) (now : ℝ) :
      RoomReachable room → RoomReachable (pauseForReconnect room now)
  | forfeit (room : Room) :
      RoomReachable room → RoomReachable (graceForfeit room)
  | resume (room : Room) (now : ℝ) :
      RoomReachable room → RoomReachable (resumeFromPauseIfReady room now)
  | reconnect (room : Room) (slot : PlayerSlot) (socketId : String) :
      RoomReachable room → RoomReachable (connectPlayer room slot socketId)
  | join (room : Room) (slot : PlayerSlot) (socketId : String) :
      RoomReachable room → RoomReachable (joinFresh room slot socketId)
  | leave (room : Room) (slot : PlayerSlot) :
      RoomReachable room → RoomReachable (disconnectPlayer room slot)
  | vote (room : Room) (slot : PlayerSlot) :
      RoomReachable room → RoomReachable (addVote room slot)
  | unvote (room : Room) (slot : PlayerSlot) :
      RoomReachable room → RoomReachable (removeVote room slot)
  | aim (room : Room) (slot : PlayerSlot) (angleDeg power : ℝ) :
      RoomReachable room → RoomReachable (applyAimRoom room slot angleDeg power)

/-! ## Concrete states used by witnesses and counterexamples -/

/-- A small concrete terrain. -/
noncomputable def exTerrain : TerrainState := ⟨3, 600, [100, 200, 300]⟩

/-- A concrete tank at a given position with given health. -/
noncomputable def mkTank (slot : PlayerSlot) (x y hp : ℝ) : TankState :=
  ⟨slot, x, y, 45, 72, hp, true⟩

/-- A concrete snapshot built from two tanks. -/
noncomputable def mkState (phase : GamePhase) (active : PlayerSlot) (tA tB : TankState)
    (terrain : TerrainState) (proj : Option ProjectileState) : GameState :=
  { roomCode := "R1"
    phase := phase
    activeSlot := active
    turnEndsAt := none
    terrain := terrain
    wind := ⟨0⟩
    tanks := fun s => match s with | .A => tA | .B => tB
    projectile := proj
    winnerSlot := none }

/-- A concrete in-flight projectile. -/
noncomputable def exProj : ProjectileState := ⟨⟨500, 100⟩, ⟨10, -5⟩, true, .A⟩

/-- Snapshot with a live projectile, used by the stepping witness. -/
noncomputable def exStepState : GameState :=
  mkState .projectile_flight .A (mkTank .A 180 0 100) (mkTank .B 820 0 100) exTerrain
    (some exProj)

/-- Terrain used by the crater counterexample: column 4 holds a high peak. -/
noncomputable def exDeformTerrain : TerrainState := ⟨5, 600, [300, 300, 300, 300, 50]⟩

/-- Snapshot used by the crater counterexample. -/
noncomputable def exDeformState : GameState :=
  mkState .projectile_flight .A (mkTank .A 0 0 100) (mkTank .B 4 0 100) exDeformTerrain none

/-- Impact point of the crater counterexample: column 4 is 36.5 columns away,
farther than `craterRadius`, yet still deformed. -/
noncomputable def exDeformImpact : Vector2 := ⟨40.5, 100⟩

/-- Snapshot with both tanks at full health. -/
noncomputable def exWinState : GameState :=
  mkState .aiming .A (mkTank .A 180 0 100) (mkTank .B 820 0 100) exTerrain none

/-- The tank record produced by `applyBlastDamage` for an affected slot:
hp drops by the damage amount, clamped at zero. -/
noncomputable def blastTankAfter (s : GameState) (impact : Vector2) (slot : PlayerSlot) :
    TankState :=
  { s.tanks slot with
    hp := max 0 ((s.tanks slot).hp - ((damageFor (blastDistance s impact slot) : ℤ) : ℝ)) }

/-- The `DamageResult` entry produced by `applyBlastDamage` for an affected
slot. -/
noncomputable def blastResult (s : GameState) (impact : Vector2) (slot : PlayerSlot) :
    DamageResult :=
  ⟨slot, damageFor (blastDistance s impact slot),
   max 0 ((s.tanks slot).hp - ((damageFor (blastDistance s impact slot) : ℤ) : ℝ))⟩

/-- Snapshot used by the blast-damage witnesses: tank A at distance 1 from
the impact point, tank B at distance 2. -/
noncomputable def exBlastState : GameState :=
  mkState .projectile_flight .A (mkTank .A 1 0 100) (mkTank .B 2 0 100) exTerrain none

/-- Impact point used by the blast-damage witnesses. -/
noncomputable def exBlastImpact : Vector2 := ⟨0, 0⟩

/-- A room in the aiming phase with slot A active, used by the aim witness. -/
noncomputable def exAimRoom : Room :=
  { code := "ROOM1"
    seed := 1
    rngSeed := 1
    rngIdx := 0
    nextStartingSlot := .A
    state := mkState .aiming .A (mkTank .A 180 0 100) (mkTank .B 820 0 100) exTerrain none
    players := fun _ => none
    rematchVotes := fun _ => false
    pauseSnapshot := none }

/-- A manager holding `exAimRoom` with one bound socket, used by the aim
witness. -/
noncomputable def exAimManager : ManagerState :=
  { rooms := [("ROOM1", exAimRoom)]
    bindings := [("sock1", ⟨"ROOM1", .A⟩)]
    rng := fun _ => 0
    rngIdx := 0 }

/-- An empty manager whose RNG constantly draws 0, used by the room-creation
witness. -/
noncomputable def exEmptyManager : ManagerState :=
  { rooms := []
    bindings := []
    rng := fun _ => 0
    rngIdx := 0 }

/-- A manager whose RNG constantly draws 0 and whose registry already holds
rooms under the codes "AAAAA" (the code every retry draws) and "00000" (the
numeric fallback code), used by the room-creation counterexample. -/
noncomputable def exBusyManager : ManagerState :=
  { rooms := [("AAAAA", { exAimRoom with code := "AAAAA" }),
              ("00000", { exAimRoom with code := "00000" })]
    bindings := []
    rng := fun _ => 0
    rngIdx := 0 }

end SE

namespace SE

/-! ## Theorems -/

/-! ### Rounding helpers -/

/-- `Math.round` of an integer is that integer. -/
theorem jsRound_intCast (n : ℤ) : jsRound (n : ℝ) = n := by
  rw [jsRound, Int.floor_int_add]
  norm_num

/-- `Math.round` is bounded above by any integer bound on its argument. -/
theorem jsRound_le {r : ℝ} {n : ℤ} (h : r ≤ (n : ℝ)) : jsRound r ≤ n := by
  rw [jsRound, Int.floor_le_iff]
  linarith

/-- `Math.round` is bounded below by any integer bound on its argument. -/
theorem le_jsRound {n : ℤ} {r : ℝ} (h : (n : ℝ) ≤ r) : n ≤ jsRound r := by
  rw [jsRound]
  exact Int.le_floor.mpr (by linarith)

/-- `Math.round` is monotone. -/
theorem jsRound_mono {a b : ℝ} (h : a ≤ b) : jsRound a ≤ jsRound b :=
  Int.floor_le_floor (by linarith)

/-- A `List.getD` read satisfies any predicate satisfied by all entries and
by the default. -/
theorem getD_pred {P : ℝ → Prop} (hs : List ℝ) (i : ℕ) (d : ℝ)
    (hall : ∀ v ∈ hs, P v) (hd : P d) : P (hs.getD i d) := by
  rcases lt_or_ge i hs.length with h | h
  · rw [List.getD_eq_getElem hs d h]
    exact hall _ (List.getElem_mem h)
  · rw [List.getD_eq_default hs d h]
    exact hd

/-! ### Terrain generation (claim C2) -/

/-- The lower clamp bound of `generateTerrain` at the game's world height. -/
theorem terrain_lo : ((jsRound (WORLD_HEIGHT * 0.3) : ℤ) : ℝ) = 180 := by
  have h : WORLD_HEIGHT * 0.3 = ((180 : ℤ) : ℝ) := by norm_num [WORLD_HEIGHT]
  rw [h, jsRound_intCast]
  norm_num

/-- Every raw (pre-smoothing) column at the game's world height lies in
`[180, 580]`. -/
theorem rawColumn_mem (seed : ℝ) (x : ℕ) :
    180 ≤ rawColumn seed WORLD_HEIGHT x ∧ rawColumn seed WORLD_HEIGHT x ≤ 580 := by
  have hhi : WORLD_HEIGHT - 20 = (580 : ℝ) := by norm_num [WORLD_HEIGHT]
  constructor
  · calc (180 : ℝ) = ((jsRound (WORLD_HEIGHT * 0.3) : ℤ) : ℝ) := terrain_lo.symm
      _ ≤ rawColumn seed WORLD_HEIGHT x := le_max_left _ _
  · show clampR _ _ _ ≤ _
    rw [clampR]
    refine max_le ?_ ?_
    · rw [terrain_lo]; norm_num
    · rw [hhi]; exact min_le_left _ _

/-- One smoothing step keeps all entries inside `[180, 580]` at the game's
parameters: the 3-point average of in-range values is in range, and so is
its rounding since the bounds are integers. -/
theorem smoothAt_mem (hs : List ℝ) (x : ℕ)
    (hall : ∀ v ∈ hs, 180 ≤ v ∧ v ≤ 580) :
    ∀ v ∈ smoothAt (WORLD_HEIGHT * 0.62) hs x, 180 ≤ v ∧ v ≤ 580 := by
  intro v hv
  have hbase : (180 : ℝ) ≤ WORLD_HEIGHT * 0.62 ∧ WORLD_HEIGHT * 0.62 ≤ 580 := by
    norm_num [WORLD_HEIGHT]
  rcases List.mem_or_eq_of_mem_set hv with h | h
  · exact hall v h
  · subst h
    have hc : 180 ≤ hs.getD x (WORLD_HEIGHT * 0.62) ∧
        hs.getD x (WORLD_HEIGHT * 0.62) ≤ 580 := getD_pred hs x _ hall hbase
    have hp : 180 ≤ hs.getD (x - 1) (hs.getD x (WORLD_HEIGHT * 0.62)) ∧
        hs.getD (x - 1) (hs.getD x (WORLD_HEIGHT * 0.62)) ≤ 580 :=
      getD_pred hs (x - 1) _ hall hc
    have hn : 180 ≤ hs.getD (x + 1) (hs.getD x (WORLD_HEIGHT * 0.62)) ∧
        hs.getD (x + 1) (hs.getD x (WORLD_HEIGHT * 0.62)) ≤ 580 :=
      getD_pred hs (x + 1) _ hall hc
    set p := hs.getD (x - 1) (hs.getD x (WORLD_HEIGHT * 0.62)) with hpdef
    set c := hs.getD x (WORLD_HEIGHT * 0.62) with hcdef
    set n := hs.getD (x + 1) (hs.getD x (WORLD_HEIGHT * 0.62)) with hndef
    have hmean_lo : ((180 : ℤ) : ℝ) ≤ (p + c + n) / 3 := by push_cast; linarith [hp.1, hc.1, hn.1]
    have hmean_hi : (p + c + n) / 3 ≤ ((580 : ℤ) : ℝ) := by push_cast; linarith [hp.2, hc.2, hn.2]
    constructor
    · have := le_jsRound hmean_lo
      exact_mod_cast Int.cast_le.mpr this
    · have := jsRound_le hmean_hi
      exact_mod_cast Int.cast_le.mpr this

/-- The whole smoothing loop keeps all entries inside `[180, 580]`. -/
theorem smoothLoop_mem : ∀ (fuel x : ℕ) (hs : List ℝ),
    (∀ v ∈ hs, 180 ≤ v ∧ v ≤ 580) →
    ∀ v ∈ smoothLoop (WORLD_HEIGHT * 0.62) fuel x hs, 180 ≤ v ∧ v ≤ 580 := by
  intro fuel
  induction fuel with
  | zero => intro x hs hall; exact hall
  | succ n ih =>
    intro x hs hall
    exact ih (x + 1) _ (smoothAt_mem hs x hall)

/-- Unfolding equation for the heights field of `generateTerrain`. -/
theorem generateTerrain_heights (seed : ℝ) (width : ℕ) (height : ℝ) :
    (generateTerrain seed width height).heights
      = smoothLoop (height * 0.62) (width - 2) 1
          ((List.range width).map (rawColumn seed height)) := rfl

/-- The smoothing loop preserves the number of columns. -/
theorem smoothLoop_length (base : ℝ) :
    ∀ (fuel x : ℕ) (hs : List ℝ), (smoothLoop base fuel x hs).length = hs.length := by
  intro fuel
  induction fuel with
  | zero => intro x hs; rfl
  | succ n ih =>
    intro x hs
    rw [smoothLoop, ih, smoothAt]
    exact List.length_set hs x _

/-- Claim C2: `generateTerrain` at the game's dimensions returns, for every
seed, a heights array of length `WORLD_WIDTH` whose every entry lies within
`[0.3 * height, height - 20]` after the smoothing pass, and two calls with
equal arguments return identical arrays. -/
theorem generateTerrain_spec (seed : ℝ) (i : ℕ) :
    (generateTerrain seed WORLD_WIDTH WORLD_HEIGHT).heights.length = WORLD_WIDTH ∧
    (i < WORLD_WIDTH →
      0.3 * WORLD_HEIGHT ≤ (generateTerrain seed WORLD_WIDTH WORLD_HEIGHT).heights.getD i 0 ∧
      (generateTerrain seed WORLD_WIDTH WORLD_HEIGHT).heights.getD i 0 ≤ WORLD_HEIGHT - 20) ∧
    generateTerrain seed WORLD_WIDTH WORLD_HEIGHT = generateTerrain seed WORLD_WIDTH WORLD_HEIGHT := by
  have hlen : (generateTerrain seed WORLD_WIDTH WORLD_HEIGHT).heights.length = WORLD_WIDTH := by
    rw [generateTerrain_heights, smoothLoop_length]
    simp
  refine ⟨hlen, fun hi => ?_, rfl⟩
  have hall : ∀ v ∈ (generateTerrain seed WORLD_WIDTH WORLD_HEIGHT).heights,
      180 ≤ v ∧ v ≤ 580 := by
    rw [generateTerrain_heights]
    refine smoothLoop_mem _ _ _ ?_
    intro v hv
    rcases List.mem_map.mp hv with ⟨x, _, hx⟩
    rw [← hx]
    exact rawColumn_mem seed x
  have hmem : (generateTerrain seed WORLD_WIDTH WORLD_HEIGHT).heights.getD i 0
      ∈ (generateTerrain seed WORLD_WIDTH WORLD_HEIGHT).heights := by
    have hlt : i < (generateTerrain seed WORLD_WIDTH WORLD_HEIGHT).heights.length := by
      rw [hlen]; exact hi
    rw [List.getD_eq_getElem _ _ hlt]
    exact List.getElem_mem hlt
  have hb := hall _ hmem
  constructor
  · calc (0.3 : ℝ) * WORLD_HEIGHT = 180 := by norm_num [WORLD_HEIGHT]
      _ ≤ _ := hb.1
  · calc (generateTerrain seed WORLD_WIDTH WORLD_HEIGHT).heights.getD i 0 ≤ 580 := hb.2
      _ = WORLD_HEIGHT - 20 := by norm_num [WORLD_HEIGHT]

/-- Witness for C2 at seed 0, column 0. -/
theorem generateTerrain_spec_witness :
    (0 : ℕ) < WORLD_WIDTH ∧
    (generateTerrain 0 WORLD_WIDTH WORLD_HEIGHT).heights.length = WORLD_WIDTH ∧
    0.3 * WORLD_HEIGHT ≤ (generateTerrain 0 WORLD_WIDTH WORLD_HEIGHT).heights.getD 0 0 ∧
    (generateTerrain 0 WORLD_WIDTH WORLD_HEIGHT).heights.getD 0 0 ≤ WORLD_HEIGHT - 20 :=
  ⟨by norm_num [WORLD_WIDTH],
   (generateTerrain_spec 0 0).1,
   ((generateTerrain_spec 0 0).2.1 (by norm_num [WORLD_WIDTH])).1,
   ((generateTerrain_spec 0 0).2.1 (by norm_num [WORLD_WIDTH])).2⟩

/-- Claim C4: for every snapshot and lastShooter slot, `resolveWinner` returns
no winner when both tanks have positive hp; the slot opposite to the shooter
when both are at or below zero; and the unique tank with positive hp when
exactly one is positive. -/
theorem resolveWinner_spec (s : GameState) (lastShooter : PlayerSlot) :
    ((s.tanks .A).hp > 0 → (s.tanks .B).hp > 0 → resolveWinner s lastShooter = none) ∧
    ((s.tanks .A).hp ≤ 0 → (s.tanks .B).hp ≤ 0 →
      resolveWinner s lastShooter = some (oppositeSlot lastShooter)) ∧
    ((s.tanks .A).hp > 0 → (s.tanks .B).hp ≤ 0 → resolveWinner s lastShooter = some .A) ∧
    ((s.tanks .B).hp > 0 → (s.tanks .A).hp ≤ 0 → resolveWinner s lastShooter = some .B) := by
  have h : resolveWinner s lastShooter =
      if (s.tanks .A).hp > 0 ∧ (s.tanks .B).hp > 0 then none
      else if (s.tanks .A).hp ≤ 0 ∧ (s.tanks .B).hp ≤ 0 then some (oppositeSlot lastShooter)
      else if (s.tanks .A).hp > 0 then some .A else some .B := rfl
  rw [h]
  refine ⟨fun ha hb => ?_, fun ha hb => ?_, fun ha hb => ?_, fun hb ha => ?_⟩
  · rw [if_pos ⟨ha, hb⟩]
  · rw [if_neg (by rintro ⟨h1, _⟩; linarith), if_pos ⟨ha, hb⟩]
  · rw [if_neg (by rintro ⟨_, h2⟩; linarith), if_neg (by rintro ⟨_, h2⟩; linarith),
      if_pos ha]
  · rw [if_neg (by rintro ⟨h1, _⟩; linarith), if_neg (by rintro ⟨h1, _⟩; linarith),
      if_neg (by linarith)]

/-- Witness for C4 at a snapshot where both tanks hold 100 hp. -/
theorem resolveWinner_spec_witness :
    (exWinState.tanks .A).hp > 0 ∧ (exWinState.tanks .B).hp > 0 ∧
      resolveWinner exWinState .A = none :=
  ⟨by norm_num [exWinState, mkState, mkTank],
   by norm_num [exWinState, mkState, mkTank],
   (resolveWinner_spec exWinState .A).1
     (by norm_num [exWinState, mkState, mkTank])
     (by norm_num [exWinState, mkState, mkTank])⟩

/-- Claim C10: `heightAt` is total for every real `x`: the lookup index is
`Math.round x` clamped into `[0, width - 1]`, a missing entry falls back to
`terrain.height`, and any `x` at or past the right world edge reads the last
column. -/
theorem heightAt_total (t : TerrainState) (x : ℝ) :
    heightAt t x
        = t.heights.getD (clampI (jsRound x) 0 ((t.width : ℤ) - 1)).toNat t.height ∧
    (1 ≤ t.width →
      0 ≤ clampI (jsRound x) 0 ((t.width : ℤ) - 1) ∧
      clampI (jsRound x) 0 ((t.width : ℤ) - 1) ≤ (t.width : ℤ) - 1) ∧
    ((t.width : ℝ) - 1 ≤ x → heightAt t x = t.heights.getD (t.width - 1) t.height) := by
  refine ⟨rfl, fun hw => ?_, fun hx => ?_⟩
  · constructor
    · exact le_max_left _ _
    · have hw' : (1 : ℤ) ≤ (t.width : ℤ) := by exact_mod_cast hw
      exact max_le (by omega) (min_le_left _ _)
  · have hr : (t.width : ℤ) - 1 ≤ jsRound x := by
      rw [jsRound]
      refine Int.le_floor.mpr ?_
      push_cast
      linarith
    rcases Nat.eq_zero_or_pos t.width with h0 | hpos
    · simp only [heightAt, clampI, h0]
      norm_num
    · have h1 : min ((t.width : ℤ) - 1) (jsRound x) = (t.width : ℤ) - 1 :=
        min_eq_left hr
      have h2 : clampI (jsRound x) 0 ((t.width : ℤ) - 1) = (t.width : ℤ) - 1 := by
        rw [clampI, h1]
        exact max_eq_right (by omega)
      simp only [heightAt, h2]
      congr 1
      omega

/-! ### Turn-deadline invariant (claim C6) -/

/-- `spawnProjectile` only changes the projectile. -/
theorem spawnProjectile_keeps (s : GameState) (slot : PlayerSlot) :
    (spawnProjectile s slot).phase = s.phase ∧
    (spawnProjectile s slot).turnEndsAt = s.turnEndsAt :=
  ⟨rfl, rfl⟩

/-- `stepProjectile` never changes the phase or the turn deadline. -/
theorem stepProjectile_keeps (s : GameState) (dt : ℝ) :
    ((stepProjectile s dt).1).phase = s.phase ∧
    ((stepProjectile s dt).1).turnEndsAt = s.turnEndsAt := by
  rcases hsp : s.projectile with _ | p
  · have hstep : stepProjectile s dt = (s, none) := by
      simp only [stepProjectile, hsp]
    rw [hstep]
    exact ⟨rfl, rfl⟩
  · by_cases hact : p.active = false
    · have hstep : stepProjectile s dt = (s, none) := by
        simp only [stepProjectile, hsp]
        rw [if_pos hact]
      rw [hstep]
      exact ⟨rfl, rfl⟩
    · simp only [stepProjectile, hsp]
      rw [if_neg hact]
      split_ifs <;> exact ⟨rfl, rfl⟩

/-- `startMatch` always ends in the aiming phase with a live deadline. -/
theorem turnInv_startMatch (room : Room) (now : ℝ) :
    ((startMatch room now).state.turnEndsAt ≠ none ↔
      (startMatch room now).state.phase = GamePhase.aiming) := by
  simp [startMatch, enterTurn]

/-- `fireForSlot` preserves the deadline invariant. -/
theorem turnInv_fire (room : Room) (slot : PlayerSlot)
    (h : room.state.turnEndsAt ≠ none ↔ room.state.phase = GamePhase.aiming) :
    ((fireForSlot room slot).state.turnEndsAt ≠ none ↔
      (fireForSlot room slot).state.phase = GamePhase.aiming) := by
  unfold fireForSlot
  split_ifs with hp
  · exact h
  · have k := spawnProjectile_keeps (setPhase room.state .projectile_flight) slot
    constructor
    · intro hne
      exfalso
      rw [show (({ room with state := spawnProjectile (setPhase room.state .projectile_flight) slot } : Room).state.turnEndsAt) = (spawnProjectile (setPhase room.state .projectile_flight) slot).turnEndsAt from rfl, k.2] at hne
      exact hne (by simp [setPhase])
    · intro hph
      exfalso
      rw [show (({ room with state := spawnProjectile (setPhase room.state .projectile_flight) slot } : Room).state.phase) = (spawnProjectile (setPhase room.state .projectile_flight) slot).phase from rfl, k.1] at hph
      simp [setPhase] at hph

/-- `resolveImpact` always ends with a cleared deadline and a non-aiming
phase, so the invariant holds unconditionally. -/
theorem turnInv_resolveImpact (room : Room) (point : Vector2) :
    ((resolveImpact room point).state.turnEndsAt ≠ none ↔
      (resolveImpact room point).state.phase = GamePhase.aiming) := by
  unfold resolveImpact
  split <;> dsimp only <;> split <;> simp [setPhase]

/-- One simulation tick preserves the deadline invariant. -/
theorem turnInv_simTick (room : Room)
    (h : room.state.turnEndsAt ≠ none ↔ room.state.phase = GamePhase.aiming) :
    ((simTick room).state.turnEndsAt ≠ none ↔
      (simTick room).state.phase = GamePhase.aiming) := by
  unfold simTick
  dsimp only
  split
  · have k := stepProjectile_keeps room.state (1 / TICK_RATE)
    show ((stepProjectile room.state (1 / TICK_RATE)).1.turnEndsAt ≠ none ↔
      (stepProjectile room.state (1 / TICK_RATE)).1.phase = GamePhase.aiming)
    rw [k.1, k.2]
    exact h
  · exact turnInv_resolveImpact _ _

/-- `turnAdvance` preserves the deadline invariant. -/
theorem turnInv_turnAdvance (room : Room) (now : ℝ)
    (h : room.state.turnEndsAt ≠ none ↔ room.state.phase = GamePhase.aiming) :
    ((turnAdvance room now).state.turnEndsAt ≠ none ↔
      (turnAdvance room now).state.phase = GamePhase.aiming) := by
  unfold turnAdvance
  split_ifs with hp
  · exact h
  · simp [enterTurn]

/-- `pauseForReconnect` preserves the deadline invariant. -/
theorem turnInv_pause (room : Room) (now : ℝ)
    (h : room.state.turnEndsAt ≠ none ↔ room.state.phase = GamePhase.aiming) :
    ((pauseForReconnect room now).state.turnEndsAt ≠ none ↔
      (pauseForReconnect room now).state.phase = GamePhase.aiming) := by
  unfold pauseForReconnect
  dsimp only
  split_ifs with hp
  · exact h
  all_goals
    dsimp only
    constructor
    · intro hne
      exact absurd rfl hne
    · intro hph
      exact absurd hph (by decide)

/-- `graceForfeit` preserves the deadline invariant. -/
theorem turnInv_forfeit (room : Room)
    (h : room.state.turnEndsAt ≠ none ↔ room.state.phase = GamePhase.aiming) :
    ((graceForfeit room).state.turnEndsAt ≠ none ↔
      (graceForfeit room).state.phase = GamePhase.aiming) := by
  unfold graceForfeit
  split_ifs with hp
  · exact h
  · push_neg at hp
    have hnone : room.state.turnEndsAt = none := by
      by_contra hne
      have := h.mp hne
      rw [hp] at this
      exact absurd this (by simp)
    split
    · exact h
    · simp [hnone]

/-- `resumeFromPauseIfReady` preserves the deadline invariant. -/
theorem turnInv_resume (room : Room) (now : ℝ)
    (h : room.state.turnEndsAt ≠ none ↔ room.state.phase = GamePhase.aiming) :
    ((resumeFromPauseIfReady room now).state.turnEndsAt ≠ none ↔
      (resumeFromPauseIfReady room now).state.phase = GamePhase.aiming) := by
  unfold resumeFromPauseIfReady
  split_ifs with h1 h2
  · exact h
  · exact h
  · push_neg at h1
    have hnone : room.state.turnEndsAt = none := by
      by_contra hne
      have := h.mp hne
      rw [h1] at this
      exact absurd this (by simp)
    split
    · simp [hnone]
    · dsimp only
      split_ifs with h3 h4
      · simp [h3]
      · simp [enterTurn]
      · simp [hnone, h3]

/-- `initialRoom` starts in the lobby with no deadline. -/
theorem turnInv_initial (code : String) (seed : ℤ) (socketId : String) :
    ((initialRoom code seed socketId).state.turnEndsAt ≠ none ↔
      (initialRoom code seed socketId).state.phase = GamePhase.aiming) := by
  have h1 : (initialRoom code seed socketId).state.turnEndsAt = none := rfl
  have h2 : (initialRoom code seed socketId).state.phase = GamePhase.lobby := rfl
  rw [h1, h2]
  simp

/-- Claim C6: in every room state reachable through the lifecycle
operations (creation, match start, fire, simulation ticks, impact
resolution, inter-round advance, pause on disconnect, grace-timer forfeit,
resume on reconnect, joins, leaves, rematch votes and aim updates), the
snapshot's `turnEndsAt` is non-null exactly when the phase is `aiming`. -/
theorem turnEndsAt_iff_aiming (room : Room) (h : RoomReachable room) :
    room.state.turnEndsAt ≠ none ↔ room.state.phase = GamePhase.aiming := by
  induction h with
  | created code seed socketId => exact turnInv_initial code seed socketId
  | start room now _ _ => exact turnInv_startMatch room now
  | fire room slot _ ih => exact turnInv_fire room slot ih
  | tick room _ ih => exact turnInv_simTick room ih
  | impactOp room point _ _ => exact turnInv_resolveImpact room point
  | advance room now _ ih => exact turnInv_turnAdvance room now ih
  | pause room now _ ih => exact turnInv_pause room now ih
  | forfeit room _ ih => exact turnInv_forfeit room ih
  | resume room now _ ih => exact turnInv_resume room now ih
  | reconnect room slot socketId _ ih => exact ih
  | join room slot socketId _ ih => exact ih
  | leave room slot _ ih => exact ih
  | vote room slot _ ih => exact ih
  | unvote room slot _ ih => exact ih
  | aim room slot angleDeg power _ ih => exact ih

/-- Witness for C6 at a freshly created room. -/
theorem turnEndsAt_iff_aiming_witness :
    RoomReachable (initialRoom "ROOM1" 7 "sockW") ∧
    ((initialRoom "ROOM1" 7 "sockW").state.turnEndsAt ≠ none ↔
      (initialRoom "ROOM1" 7 "sockW").state.phase = GamePhase.aiming) :=
  ⟨RoomReachable.created "ROOM1" 7 "sockW",
   turnEndsAt_iff_aiming _ (RoomReachable.created "ROOM1" 7 "sockW")⟩

/-! ### Terrain deformation (claim C5) -/

/-- Setting one list entry leaves every other read unchanged. -/
theorem getD_set_ne (l : List ℝ) (i j : ℕ) (a d : ℝ) (h : i ≠ j) :
    (l.set i a).getD j d = l.getD j d := by
  induction l generalizing i j with
  | nil => rfl
  | cons head tail ih =>
    cases i with
    | zero =>
      cases j with
      | zero => exact absurd rfl h
      | succ j' => rfl
    | succ i' =>
      cases j with
      | zero => rfl
      | succ j' =>
        rw [List.set_cons_succ, List.getD_cons_succ, List.getD_cons_succ]
        exact ih i' j' (fun hc => h (by rw [hc]))

/-- Setting an in-range entry makes that read return the new value. -/
theorem getD_set_self (l : List ℝ) (i : ℕ) (a d : ℝ) (h : i < l.length) :
    (l.set i a).getD i d = a := by
  induction l generalizing i with
  | nil => exact absurd h (by simp)
  | cons head tail ih =>
    cases i with
    | zero => rfl
    | succ i' =>
      rw [List.set_cons_succ, List.getD_cons_succ]
      exact ih i' (Nat.lt_of_succ_lt_succ h)

/-- `deformColumn` preserves the number of columns. -/
theorem deformColumn_length (height : ℝ) (impact : Vector2) (hs : List ℝ) (x : ℤ) :
    (deformColumn height impact hs x).length = hs.length := by
  simp only [deformColumn]
  split_ifs
  · exact List.length_set hs _ _
  · rfl

/-- `deformColumn` at column `x` leaves every other column unchanged. -/
theorem deformColumn_getD_ne (height : ℝ) (impact : Vector2) (hs : List ℝ) (x : ℤ)
    (j : ℕ) (d : ℝ) (h : x.toNat ≠ j) :
    (deformColumn height impact hs x).getD j d = hs.getD j d := by
  simp only [deformColumn]
  split_ifs
  · exact getD_set_ne hs _ j _ d h
  · rfl

/-- Columns outside the index window `[x, x + n)` of the crater loop are
unchanged. -/
theorem deformLoop_outside (height : ℝ) (impact : Vector2) :
    ∀ (n : ℕ) (x : ℤ) (hs : List ℝ) (j : ℕ) (d : ℝ), 0 ≤ x →
    ((j : ℤ) < x ∨ x + n ≤ (j : ℤ)) →
    (deformLoop height impact n x hs).getD j d = hs.getD j d := by
  intro n
  induction n with
  | zero => intro x hs j d _ _; rfl
  | succ n ih =>
    intro x hs j d hx hj
    show (deformLoop height impact n (x + 1) (deformColumn height impact hs x)).getD j d = _
    rw [ih (x + 1) _ j d (by omega) (by omega)]
    exact deformColumn_getD_ne height impact hs x j d (by omega)

/-- `deformColumn` at column `j` only depends on the pre-existing value of
column `j` (and the list length). -/
theorem deformColumn_congr (height : ℝ) (impact : Vector2) (l l' : List ℝ) (j : ℕ)
    (hlen : l'.length = l.length) (hval : ∀ d : ℝ, l'.getD j d = l.getD j d) (d : ℝ) :
    (deformColumn height impact l' (j : ℤ)).getD j d
      = (deformColumn height impact l (j : ℤ)).getD j d := by
  simp only [deformColumn, Int.toNat_natCast]
  rw [hval height]
  split_ifs
  · rcases lt_or_ge j l.length with hj | hj
    · rw [getD_set_self _ _ _ _ (by rw [hlen]; exact hj), getD_set_self _ _ _ _ hj]
    · rw [List.set_eq_of_length_le (by rw [hlen]; exact hj),
        List.set_eq_of_length_le hj]
      exact hval d
  · exact hval d

/-- Inside the crater loop's window, the final value of a column is obtained
by applying `deformColumn` at that column to the original list. -/
theorem deformLoop_hit (height : ℝ) (impact : Vector2) :
    ∀ (n : ℕ) (x : ℤ) (hs : List ℝ) (j : ℕ) (d : ℝ), 0 ≤ x →
    x ≤ (j : ℤ) → (j : ℤ) < x + n →
    (deformLoop height impact n x hs).getD j d
      = (deformColumn height impact hs (j : ℤ)).getD j d := by
  intro n
  induction n with
  | zero => intro x hs j d _ h1 h2; omega
  | succ n ih =>
    intro x hs j d hx h1 h2
    show (deformLoop height impact n (x + 1) (deformColumn height impact hs x)).getD j d = _
    rcases eq_or_lt_of_le h1 with heq | hlt
    · rw [deformLoop_outside height impact n (x + 1) _ j d (by omega) (by omega), ← heq]
    · rw [ih (x + 1) _ j d (by omega) (by omega) (by omega)]
      exact deformColumn_congr height impact hs _ j
        (deformColumn_length height impact hs x)
        (fun d' => deformColumn_getD_ne height impact hs x j d' (by omega)) d

/-- `deformColumn` never lowers a column whose value is at most the world
height. -/
theorem deformColumn_mono (height : ℝ) (impact : Vector2) (hs : List ℝ) (j : ℕ)
    (hold : hs.getD j 0 ≤ height) :
    hs.getD j 0 ≤ (deformColumn height impact hs (j : ℤ)).getD j 0 := by
  simp only [deformColumn, Int.toNat_natCast]
  split_ifs with hcond
  · rcases lt_or_ge j hs.length with hj | hj
    · rw [getD_set_self _ _ _ _ hj]
      have hsame : hs.getD j height = hs.getD j 0 := by
        rw [List.getD_eq_getElem _ _ hj, List.getD_eq_getElem _ _ hj]
      rw [hsame] at hcond
      rw [clampR]
      rcases le_or_lt ((jsRound (impact.y + Real.sqrt (max 0 (craterRadius * craterRadius - ((j : ℤ) - impact.x) * ((j : ℤ) - impact.x)))) : ℤ) : ℝ) height with h1 | h1
      · rw [min_eq_right h1]
        exact le_max_of_le_right (le_of_lt hcond)
      · rw [min_eq_left h1.le]
        exact le_max_of_le_right hold
    · rw [List.set_eq_of_length_le hj]
  · exact le_refl _

/-- `deformLoop` preserves the number of columns. -/
theorem deformLoop_length (height : ℝ) (impact : Vector2) :
    ∀ (n : ℕ) (x : ℤ) (hs : List ℝ),
    (deformLoop height impact n x hs).length = hs.length := by
  intro n
  induction n with
  | zero => intro x hs; rfl
  | succ n ih =>
    intro x hs
    show (deformLoop height impact n (x + 1) (deformColumn height impact hs x)).length = _
    rw [ih, deformColumn_length]

/-- Claim C5 (amended): `deformTerrain` never lowers a column whose pre-call
height is at most the world height; and when the impact x lies inside
`[0, width - 1]`, every column at horizontal distance at least
`craterRadius + 1` from the impact is exactly unchanged. -/
theorem deformTerrain_spec (s : GameState) (impact : Vector2) :
    (∀ j : ℕ, s.terrain.heights.getD j 0 ≤ s.terrain.height →
      s.terrain.heights.getD j 0 ≤ (deformTerrain s impact).terrain.heights.getD j 0) ∧
    (0 ≤ impact.x → impact.x ≤ (s.terrain.width : ℝ) - 1 →
      ∀ j : ℕ, craterRadius + 1 ≤ |(j : ℝ) - impact.x| →
      (deformTerrain s impact).terrain.heights.getD j 0
        = s.terrain.heights.getD j 0) := by
  have hterrain : (deformTerrain s impact).terrain.heights
      = deformLoop s.terrain.height impact
          ((clampI (jsCeil (impact.x + craterRadius)) 0 ((s.terrain.width : ℤ) - 1) + 1
            - clampI (jsFloor (impact.x - craterRadius)) 0 ((s.terrain.width : ℤ) - 1)).toNat)
          (clampI (jsFloor (impact.x - craterRadius)) 0 ((s.terrain.width : ℤ) - 1))
          s.terrain.heights := rfl
  set start := clampI (jsFloor (impact.x - craterRadius)) 0 ((s.terrain.width : ℤ) - 1)
    with hstart
  set stop := clampI (jsCeil (impact.x + craterRadius)) 0 ((s.terrain.width : ℤ) - 1)
    with hstop
  have hstart0 : 0 ≤ start := le_max_left _ _
  constructor
  · intro j hold
    rw [hterrain]
    by_cases hin : start ≤ (j : ℤ) ∧ (j : ℤ) < start + ((stop + 1 - start).toNat : ℤ)
    · rw [deformLoop_hit _ _ _ _ _ _ _ hstart0 hin.1 hin.2]
      exact deformColumn_mono _ _ _ _ hold
    · rw [deformLoop_outside _ _ _ _ _ _ _ hstart0 (by omega)]
  · intro hx0 hx1 j hfar
    rw [hterrain]
    have hw1 : (1 : ℝ) ≤ (s.terrain.width : ℝ) := by linarith
    have hw1' : (1 : ℤ) ≤ (s.terrain.width : ℤ) := by exact_mod_cast hw1
    have hfloor_le : jsFloor (impact.x - craterRadius) ≤ (s.terrain.width : ℤ) - 1 := by
      rw [jsFloor]
      have : impact.x - craterRadius ≤ ((s.terrain.width : ℤ) - 1 : ℤ) := by
        push_cast
        rw [craterRadius]
        linarith
      calc ⌊impact.x - craterRadius⌋ ≤ ⌊(((s.terrain.width : ℤ) - 1 : ℤ) : ℝ)⌋ :=
            Int.floor_le_floor this
        _ = (s.terrain.width : ℤ) - 1 := Int.floor_intCast _
    have hstart_lb : impact.x - (craterRadius + 1) < (start : ℝ) := by
      have h1 : min ((s.terrain.width : ℤ) - 1) (jsFloor (impact.x - craterRadius))
          = jsFloor (impact.x - craterRadius) := min_eq_right hfloor_le
      have h2 : jsFloor (impact.x - craterRadius) ≤ start := by
        rw [hstart, clampI, h1]
        exact le_max_right _ _
      have h3 : impact.x - craterRadius - 1 < (jsFloor (impact.x - craterRadius) : ℝ) := by
        rw [jsFloor]
        exact Int.sub_one_lt_floor _
      have h4 : ((jsFloor (impact.x - craterRadius) : ℤ) : ℝ) ≤ (start : ℝ) := by
        exact_mod_cast h2
      linarith
    have hstop_ub : (stop : ℝ) < impact.x + (craterRadius + 1) := by
      have hceil : (jsCeil (impact.x + craterRadius) : ℝ) < impact.x + craterRadius + 1 := by
        rw [jsCeil]
        exact Int.ceil_lt_add_one _
      have h0 : (0 : ℝ) < impact.x + craterRadius + 1 := by
        rw [craterRadius]; linarith
      have hmin : ((min ((s.terrain.width : ℤ) - 1) (jsCeil (impact.x + craterRadius)) : ℤ) : ℝ)
          < impact.x + craterRadius + 1 := by
        calc ((min ((s.terrain.width : ℤ) - 1) (jsCeil (impact.x + craterRadius)) : ℤ) : ℝ)
            ≤ ((jsCeil (impact.x + craterRadius) : ℤ) : ℝ) := by
              exact_mod_cast min_le_right _ _
          _ < impact.x + craterRadius + 1 := hceil
      rw [hstop, clampI]
      push_cast
      push_cast at hmin
      have hmax := max_lt h0 hmin
      linarith [hmax]
    have houtside : (j : ℤ) < start ∨ start + ((stop + 1 - start).toNat : ℤ) ≤ (j : ℤ) := by
      have hss : start ≤ stop := by
        have hfc : jsFloor (impact.x - craterRadius) ≤ jsCeil (impact.x + craterRadius) := by
          have : (jsFloor (impact.x - craterRadius) : ℝ) ≤ (jsCeil (impact.x + craterRadius) : ℝ) := by
            rw [jsFloor, jsCeil]
            calc ((⌊impact.x - craterRadius⌋ : ℤ) : ℝ) ≤ impact.x - craterRadius :=
                  Int.floor_le _
              _ ≤ impact.x + craterRadius := by rw [craterRadius]; linarith
              _ ≤ ((⌈impact.x + craterRadius⌉ : ℤ) : ℝ) := Int.le_ceil _
          exact_mod_cast this
        rw [hstart, hstop, clampI, clampI]
        exact max_le_max (le_refl 0) (min_le_min (le_refl _) hfc)
      rcases le_abs.mp hfar with h | h
      · -- j is far to the right of the impact
        right
        have : (stop : ℝ) < (j : ℝ) := by
          rw [craterRadius] at hstop_ub h
          linarith
        have hsj : stop < (j : ℤ) := by exact_mod_cast this
        omega
      · -- j is far to the left of the impact
        left
        have : (j : ℝ) < (start : ℝ) := by
          rw [craterRadius] at hstart_lb h
          linarith
        exact_mod_cast this
    rw [deformLoop_outside _ _ _ _ _ _ _ hstart0 houtside]

/-- Witness for the amended C5 on a concrete 5-column terrain. -/
theorem deformTerrain_spec_witness :
    exDeformState.terrain.heights.getD 4 0 ≤ exDeformState.terrain.height ∧
    exDeformState.terrain.heights.getD 4 0
      ≤ (deformTerrain exDeformState ⟨2, 100⟩).terrain.heights.getD 4 0 ∧
    (0 : ℝ) ≤ (2 : ℝ) ∧ (2 : ℝ) ≤ (exDeformState.terrain.width : ℝ) - 1 ∧
    craterRadius + 1 ≤ |((100 : ℕ) : ℝ) - (2 : ℝ)| ∧
    (deformTerrain exDeformState ⟨2, 100⟩).terrain.heights.getD 100 0
      = exDeformState.terrain.heights.getD 100 0 :=
  ⟨by norm_num [exDeformState, mkState, exDeformTerrain],
   (deformTerrain_spec exDeformState ⟨2, 100⟩).1 4
     (by norm_num [exDeformState, mkState, exDeformTerrain]),
   by norm_num,
   by norm_num [exDeformState, mkState, exDeformTerrain],
   by rw [craterRadius]; norm_num,
   (deformTerrain_spec exDeformState ⟨2, 100⟩).2 (by norm_num)
     (by norm_num [exDeformState, mkState, exDeformTerrain]) 100
     (by rw [craterRadius]; norm_num)⟩

/-- Counterexample to C5 as stated: with the impact at x = 40.5, column 4 is
36.5 columns away — farther than `craterRadius` = 36 — yet `deformTerrain`
changes its height from 50 to 100 (the clamped loop window together with a
zero chord still digs at the window edge). -/
theorem deformTerrain_counterexample :
    craterRadius < |(4 : ℝ) - exDeformImpact.x| ∧
    exDeformState.terrain.heights.getD 4 0 = 50 ∧
    (deformTerrain exDeformState exDeformImpact).terrain.heights.getD 4 0 = 100 := by
  have hx : exDeformImpact.x = 40.5 := rfl
  have hy : exDeformImpact.y = 100 := rfl
  refine ⟨?_, ?_, ?_⟩
  · rw [craterRadius, hx]
    rw [show |(4 : ℝ) - 40.5| = 36.5 by rw [abs_of_nonpos (by norm_num)]; norm_num]
    norm_num
  · rfl
  · have hfloor : jsFloor (exDeformImpact.x - craterRadius) = 4 := by
      rw [jsFloor, hx, craterRadius]
      exact Int.floor_eq_iff.mpr (by constructor <;> norm_num)
    have hceil : jsCeil (exDeformImpact.x + craterRadius) = 77 := by
      rw [jsCeil, hx, craterRadius]
      exact Int.ceil_eq_iff.mpr (by constructor <;> norm_num)
    have e1 : (deformTerrain exDeformState exDeformImpact).terrain.heights
        = deformLoop exDeformState.terrain.height exDeformImpact
            ((clampI (jsCeil (exDeformImpact.x + craterRadius)) 0
                ((exDeformState.terrain.width : ℤ) - 1) + 1
              - clampI (jsFloor (exDeformImpact.x - craterRadius)) 0
                  ((exDeformState.terrain.width : ℤ) - 1)).toNat)
            (clampI (jsFloor (exDeformImpact.x - craterRadius)) 0
              ((exDeformState.terrain.width : ℤ) - 1))
            exDeformState.terrain.heights := rfl
    have hwidth : ((exDeformState.terrain.width : ℤ) - 1) = 4 := rfl
    have hstartval : clampI (jsFloor (exDeformImpact.x - craterRadius)) 0
        ((exDeformState.terrain.width : ℤ) - 1) = 4 := by
      rw [hfloor, hwidth]
      decide
    have hstopval : clampI (jsCeil (exDeformImpact.x + craterRadius)) 0
        ((exDeformState.terrain.width : ℤ) - 1) = 4 := by
      rw [hceil, hwidth]
      decide
    have e2 : (deformTerrain exDeformState exDeformImpact).terrain.heights
        = deformColumn exDeformState.terrain.height exDeformImpact
            exDeformState.terrain.heights 4 := by
      rw [e1, hstartval, hstopval]
      show deformLoop _ _ (((4 : ℤ) + 1 - 4).toNat) _ _ = _
      rw [show ((4 : ℤ) + 1 - 4).toNat = 1 from rfl]
      simp only [deformLoop]
    rw [e2]
    have hheight : exDeformState.terrain.height = 600 := rfl
    have hh : exDeformState.terrain.heights = [300, 300, 300, 300, 50] := rfl
    simp only [deformColumn, hheight, hh, hy]
    have hdx : (((4 : ℤ) : ℝ) - exDeformImpact.x) = -36.5 := by rw [hx]; norm_num
    rw [hdx]
    have hneg : craterRadius * craterRadius - (-36.5 : ℝ) * -36.5 = -36.25 := by
      rw [craterRadius]; norm_num
    rw [hneg, show max (0 : ℝ) (-36.25) = 0 from max_eq_left (by norm_num), Real.sqrt_zero,
      show (100 : ℝ) + 0 = ((100 : ℤ) : ℝ) by norm_num, jsRound_intCast]
    have hread : List.getD [(300 : ℝ), 300, 300, 300, 50] (4 : ℤ).toNat 600 = 50 := rfl
    rw [hread, if_pos (by norm_num : ((100 : ℤ) : ℝ) > 50)]
    rw [show (4 : ℤ).toNat = 4 from rfl]
    rw [getD_set_self _ _ _ _ (by norm_num)]
    rw [clampR]
    norm_num

/-! ### Projectile stepping (claim C1) -/

/-- Claim C1: for every snapshot holding an active projectile and every
positive `dt`, `stepProjectile` first integrates semi-implicitly (velocity
by wind and gravity, then position by the new velocity), then tests in
order: tank collision (impact at the projectile position), terrain
crossing (impact at `(x, terrain height)`), out-of-bounds (impact at the
position clamped to the world box); it returns no impact exactly when none
of the three conditions triggers. -/
theorem stepProjectile_spec (s : GameState) (dt : ℝ) (p : ProjectileState)
    (hproj : s.projectile = some p) (hact : p.active = true) (hdt : 0 < dt) :
    stepProjectile s dt = stepSpec s dt p ∧
    ((stepProjectile s dt).2 = none ↔
      ¬ tankHitCond s (stepPos s dt p) ∧ ¬ terrainHitCond s (stepPos s dt p) ∧
      ¬ outOfBoundsCond s (stepPos s dt p)) := by
  have heq : stepProjectile s dt = stepSpec s dt p := by
    simp only [stepProjectile, hproj, hact, Bool.true_eq_false, if_false]
    simp only [stepSpec, stepPos, stepVel, tankHitCond, terrainHitCond, outOfBoundsCond, hact]
    split_ifs <;> rfl
  refine ⟨heq, ?_⟩
  rw [heq]
  show (stepSpec s dt p).2 = none ↔ _
  simp only [stepSpec]
  split_ifs with h1 h2 h3
  · simp [h1]
  · simp [h1, h2]
  · simp [h1, h2, h3]
  · simp [h1, h2, h3]

/-- Witness for C1 at a concrete snapshot with a live projectile. -/
theorem stepProjectile_spec_witness :
    exStepState.projectile = some exProj ∧ exProj.active = true ∧ (0 : ℝ) < 1 / 60 ∧
    stepProjectile exStepState (1 / 60) = stepSpec exStepState (1 / 60) exProj :=
  ⟨rfl, rfl, by norm_num,
   (stepProjectile_spec exStepState (1 / 60) exProj rfl rfl (by norm_num)).1⟩

/-! ### Blast damage (claims C3 and C8) -/

/-- Updating slot `A` of a tank map leaves slot `B` unchanged. -/
theorem update_A_B (f : PlayerSlot → TankState) (t : TankState) :
    Function.update f .A t .B = f .B := by
  simp [Function.update]

/-- Updating slot `B` of a tank map leaves slot `A` unchanged. -/
theorem update_B_A (f : PlayerSlot → TankState) (t : TankState) :
    Function.update f .B t .A = f .A := by
  simp [Function.update]

/-- `blastTank` is the identity when the tank is out of blast range. -/
theorem blastTank_gt {impact : Vector2} {s : GameState} {res : List DamageResult}
    {slot : PlayerSlot} (h : blastRadius < blastDistance s impact slot) :
    blastTank impact (s, res) slot = (s, res) := by
  simp only [blastDistance] at h
  simp only [blastTank]
  rw [if_pos h]

/-- `blastTank` damages the tank and appends a result entry when the tank is
within blast range. -/
theorem blastTank_le {impact : Vector2} {s : GameState} {res : List DamageResult}
    {slot : PlayerSlot} (h : blastDistance s impact slot ≤ blastRadius) :
    blastTank impact (s, res) slot =
      ({ s with tanks := Function.update s.tanks slot (blastTankAfter s impact slot) },
       res ++ [blastResult s impact slot]) := by
  simp only [blastDistance] at h
  simp only [blastTank]
  rw [if_neg (not_lt.mpr h)]
  rfl

/-- Damaging tank A does not change anything `applyBlastDamage` later reads
about tank B. -/
theorem blast_stateA_B (s : GameState) (impact : Vector2) :
    blastDistance { s with tanks := Function.update s.tanks .A (blastTankAfter s impact .A) }
        impact .B = blastDistance s impact .B ∧
    blastTankAfter { s with tanks := Function.update s.tanks .A (blastTankAfter s impact .A) }
        impact .B = blastTankAfter s impact .B ∧
    blastResult { s with tanks := Function.update s.tanks .A (blastTankAfter s impact .A) }
        impact .B = blastResult s impact .B := by
  refine ⟨?_, ?_, ?_⟩
  · simp only [blastDistance, update_A_B]
  · simp only [blastTankAfter, blastDistance, update_A_B]
  · simp only [blastResult, blastTankAfter, blastDistance, update_A_B]

/-- Master characterization of `applyBlastDamage`: case split on which tanks
lie within the blast radius of the impact. -/
theorem applyBlastDamage_eq (s : GameState) (impact : Vector2) :
    applyBlastDamage s impact =
      if blastDistance s impact .A ≤ blastRadius then
        if blastDistance s impact .B ≤ blastRadius then
          ({ s with tanks := Function.update (Function.update s.tanks .A (blastTankAfter s impact .A)) .B (blastTankAfter s impact .B) },
           [blastResult s impact .A, blastResult s impact .B])
        else
          ({ s with tanks := Function.update s.tanks .A (blastTankAfter s impact .A) },
           [blastResult s impact .A])
      else
        if blastDistance s impact .B ≤ blastRadius then
          ({ s with tanks := Function.update s.tanks .B (blastTankAfter s impact .B) },
           [blastResult s impact .B])
        else (s, []) := by
  obtain ⟨hB2, hB3, hB4⟩ := blast_stateA_B s impact
  by_cases hA : blastDistance s impact .A ≤ blastRadius <;>
    by_cases hB : blastDistance s impact .B ≤ blastRadius
  · rw [if_pos hA, if_pos hB]
    unfold applyBlastDamage
    rw [blastTank_le hA]
    have hB' : blastDistance { s with tanks := Function.update s.tanks .A (blastTankAfter s impact .A) } impact .B ≤ blastRadius := by
      rw [hB2]; exact hB
    rw [blastTank_le hB']
    rw [hB3, hB4]
    simp only [List.nil_append, List.cons_append]
  · rw [if_pos hA, if_neg hB]
    unfold applyBlastDamage
    rw [blastTank_le hA]
    have hB' : blastRadius < blastDistance { s with tanks := Function.update s.tanks .A (blastTankAfter s impact .A) } impact .B := by
      rw [hB2]; exact not_le.mp hB
    rw [blastTank_gt hB']
    simp only [List.nil_append]
  · rw [if_neg hA, if_pos hB]
    unfold applyBlastDamage
    rw [blastTank_gt (not_le.mp hA), blastTank_le hB]
    simp only [List.nil_append]
  · rw [if_neg hA, if_neg hB]
    unfold applyBlastDamage
    rw [blastTank_gt (not_le.mp hA), blastTank_gt (not_le.mp hB)]

/-- The result list of `applyBlastDamage`: exactly the tanks within the blast
radius, each with its damage amount and resulting hp. -/
theorem applyBlastDamage_snd (s : GameState) (impact : Vector2) :
    (applyBlastDamage s impact).2 =
      (if blastDistance s impact .A ≤ blastRadius then [blastResult s impact .A] else []) ++
      (if blastDistance s impact .B ≤ blastRadius then [blastResult s impact .B] else []) := by
  rw [applyBlastDamage_eq]
  split_ifs <;> rfl

/-- The per-tank effect of `applyBlastDamage`: hp drops iff the tank is
within the blast radius. -/
theorem applyBlastDamage_tanks (s : GameState) (impact : Vector2) (slot : PlayerSlot) :
    (applyBlastDamage s impact).1.tanks slot =
      if blastDistance s impact slot ≤ blastRadius then blastTankAfter s impact slot
      else s.tanks slot := by
  rw [applyBlastDamage_eq]
  cases slot
  · split_ifs with h1 h2 h3 <;>
      first
        | (show Function.update (Function.update s.tanks .A _) .B _ .A = _
           rw [update_B_A]
           exact Function.update_same _ _ _)
        | (show Function.update s.tanks .A _ .A = _
           exact Function.update_same _ _ _)
        | (show Function.update s.tanks .B _ .A = _
           exact update_B_A _ _)
        | rfl
  · split_ifs with h1 h2 h3 <;>
      first
        | (show Function.update (Function.update s.tanks .A _) .B _ .B = _
           exact Function.update_same _ _ _)
        | (show Function.update s.tanks .A _ .B = _
           exact update_A_B _ _)
        | (show Function.update s.tanks .B _ .B = _
           exact Function.update_same _ _ _)
        | rfl

/-- `applyBlastDamage` touches nothing in the snapshot except the tank map. -/
theorem applyBlastDamage_frame (s : GameState) (impact : Vector2) :
    (applyBlastDamage s impact).1 = { s with tanks := (applyBlastDamage s impact).1.tanks } := by
  rw [applyBlastDamage_eq]
  split_ifs <;> rfl

/-- Claim C3: `applyBlastDamage` affects exactly the tanks within
`blastRadius` of the impact: each affected tank's hp drops by
`max(1, round(maxDamage * (1 - distance / blastRadius)))` clamped at zero,
the returned list holds exactly the affected tanks with their damage and
resulting hp, and a tank farther than `blastRadius` keeps its hp and is
absent from the result. -/
theorem applyBlastDamage_spec (s : GameState) (impact : Vector2) :
    ((applyBlastDamage s impact).2 =
      (if blastDistance s impact .A ≤ blastRadius then [blastResult s impact .A] else []) ++
      (if blastDistance s impact .B ≤ blastRadius then [blastResult s impact .B] else [])) ∧
    (∀ slot, blastDistance s impact slot ≤ blastRadius →
      (applyBlastDamage s impact).1.tanks slot = blastTankAfter s impact slot) ∧
    (∀ slot, blastRadius < blastDistance s impact slot →
      (applyBlastDamage s impact).1.tanks slot = s.tanks slot ∧
      ∀ r ∈ (applyBlastDamage s impact).2, r.slot ≠ slot) ∧
    (applyBlastDamage s impact).1 = { s with tanks := (applyBlastDamage s impact).1.tanks } := by
  refine ⟨applyBlastDamage_snd s impact, fun slot hs => ?_, fun slot hs => ?_,
    applyBlastDamage_frame s impact⟩
  · rw [applyBlastDamage_tanks, if_pos hs]
  · refine ⟨by rw [applyBlastDamage_tanks, if_neg (not_le.mpr hs)], ?_⟩
    intro r hr
    rw [applyBlastDamage_snd] at hr
    cases slot
    · rw [if_neg (not_le.mpr hs), List.nil_append] at hr
      rcases Classical.em (blastDistance s impact .B ≤ blastRadius) with h | h
      · rw [if_pos h] at hr
        simp only [List.mem_singleton] at hr
        subst hr
        simp [blastResult]
      · rw [if_neg h] at hr
        simp at hr
    · rw [if_neg (not_le.mpr hs), List.append_nil] at hr
      rcases Classical.em (blastDistance s impact .A ≤ blastRadius) with h | h
      · rw [if_pos h] at hr
        simp only [List.mem_singleton] at hr
        subst hr
        simp [blastResult]
      · rw [if_neg h] at hr
        simp at hr

/-- `Math.hypot x 0` is `x` for non-negative `x`. -/
theorem hypot_of_nonneg (x : ℝ) (hx : 0 ≤ x) : hypot x 0 = x := by
  rw [hypot]
  have h : x * x + 0 * 0 = x ^ 2 := by ring
  rw [h, Real.sqrt_sq hx]

/-- Rounding evaluation helper: identify `Math.round r` from bounds. -/
theorem jsRound_eq {r : ℝ} {n : ℤ} (h1 : (n : ℝ) ≤ r + 1 / 2) (h2 : r + 1 / 2 < (n : ℝ) + 1) :
    jsRound r = n := by
  rw [jsRound]
  exact Int.floor_eq_iff.mpr ⟨h1, by exact_mod_cast h2⟩

/-- Tank A of the example blast snapshot sits at distance 1 from the impact. -/
theorem blastDistance_exA : blastDistance exBlastState exBlastImpact .A = 1 := by
  have h : blastDistance exBlastState exBlastImpact .A = hypot 1 0 := by
    simp [blastDistance, exBlastState, exBlastImpact, mkState, mkTank]
  rw [h, hypot_of_nonneg 1 (by norm_num)]

/-- Tank B of the example blast snapshot sits at distance 2 from the impact. -/
theorem blastDistance_exB : blastDistance exBlastState exBlastImpact .B = 2 := by
  have h : blastDistance exBlastState exBlastImpact .B = hypot 2 0 := by
    simp [blastDistance, exBlastState, exBlastImpact, mkState, mkTank]
  rw [h, hypot_of_nonneg 2 (by norm_num)]

/-- The blast damage dealt at distance 1 is 54. -/
theorem damageFor_one : damageFor 1 = 54 := by
  rw [damageFor, maxDamage, blastRadius, @jsRound_eq _ 54 (by norm_num) (by norm_num)]
  norm_num

/-- The blast damage dealt at distance 2 is also 54. -/
theorem damageFor_two : damageFor 2 = 54 := by
  rw [damageFor, maxDamage, blastRadius, @jsRound_eq _ 54 (by norm_num) (by norm_num)]
  norm_num

/-- Every damage amount dealt by `applyBlastDamage` is at least 1. -/
theorem one_le_damageFor (d : ℝ) : 1 ≤ damageFor d :=
  le_max_left _ _

/-- The damage amount is non-increasing in the distance to the impact. -/
theorem damageFor_antitone {d1 d2 : ℝ} (h : d1 ≤ d2) : damageFor d2 ≤ damageFor d1 := by
  unfold damageFor
  refine max_le_max le_rfl (jsRound_mono ?_)
  rw [maxDamage, blastRadius]
  have h1 : d1 / 84 ≤ d2 / 84 := by linarith
  linarith

/-- Claim C8 (amended): when both tanks lie within `blastRadius` of the
impact and tank A is at most as far as tank B, `applyBlastDamage` reports
both tanks and assigns tank A at least as much damage as tank B (damage is
non-increasing in distance, not strictly decreasing), and every assigned
amount is at least 1. -/
theorem blastDamage_monotone (s : GameState) (impact : Vector2)
    (hA : blastDistance s impact .A ≤ blastRadius)
    (hB : blastDistance s impact .B ≤ blastRadius)
    (hle : blastDistance s impact .A ≤ blastDistance s impact .B) :
    (applyBlastDamage s impact).2 = [blastResult s impact .A, blastResult s impact .B] ∧
    damageFor (blastDistance s impact .B) ≤ damageFor (blastDistance s impact .A) ∧
    1 ≤ damageFor (blastDistance s impact .A) ∧
    1 ≤ damageFor (blastDistance s impact .B) := by
  refine ⟨?_, damageFor_antitone hle, one_le_damageFor _, one_le_damageFor _⟩
  rw [applyBlastDamage_snd, if_pos hA, if_pos hB]
  rfl

/-- Witness for the amended C8 at tank distances 1 and 2. -/
theorem blastDamage_monotone_witness :
    blastDistance exBlastState exBlastImpact .A ≤ blastRadius ∧
    blastDistance exBlastState exBlastImpact .B ≤ blastRadius ∧
    blastDistance exBlastState exBlastImpact .A ≤ blastDistance exBlastState exBlastImpact .B ∧
    damageFor (blastDistance exBlastState exBlastImpact .B)
      ≤ damageFor (blastDistance exBlastState exBlastImpact .A) :=
  ⟨by rw [blastDistance_exA]; norm_num [blastRadius],
   by rw [blastDistance_exB]; norm_num [blastRadius],
   by rw [blastDistance_exA, blastDistance_exB]; norm_num,
   (blastDamage_monotone exBlastState exBlastImpact
      (by rw [blastDistance_exA]; norm_num [blastRadius])
      (by rw [blastDistance_exB]; norm_num [blastRadius])
      (by rw [blastDistance_exA, blastDistance_exB]; norm_num)).2.1⟩

/-- Counterexample to C8 as stated: tank A is strictly nearer to the impact
(distance 1 versus 2), both tanks are within the blast radius, yet both
receive the same damage amount 54 — the nearer tank does not get strictly
more damage. -/
theorem blastDamage_strict_counterexample :
    blastDistance exBlastState exBlastImpact .A < blastDistance exBlastState exBlastImpact .B ∧
    blastDistance exBlastState exBlastImpact .B ≤ blastRadius ∧
    damageFor (blastDistance exBlastState exBlastImpact .A) = 54 ∧
    damageFor (blastDistance exBlastState exBlastImpact .B) = 54 ∧
    ¬ (damageFor (blastDistance exBlastState exBlastImpact .B)
        < damageFor (blastDistance exBlastState exBlastImpact .A)) := by
  rw [blastDistance_exA, blastDistance_exB, damageFor_one, damageFor_two]
  norm_num [blastRadius]

/-- Witness for C3 at a snapshot with tank A at distance 1 and tank B at
distance 2 from the impact. -/
theorem applyBlastDamage_spec_witness :
    blastDistance exBlastState exBlastImpact .A ≤ blastRadius ∧
    (applyBlastDamage exBlastState exBlastImpact).1.tanks .A
      = blastTankAfter exBlastState exBlastImpact .A :=
  ⟨by
    rw [blastDistance_exA]
    norm_num [blastRadius],
   (applyBlastDamage_spec exBlastState exBlastImpact).2.1 .A
     (by rw [blastDistance_exA]; norm_num [blastRadius])⟩

/-! ### Claim C7: applyAim guards and clamping -/

/-- `clamp` lands in `[lo, hi]` whenever `lo ≤ hi`. -/
theorem clampR_mem (n lo hi : ℝ) (h : lo ≤ hi) :
    lo ≤ clampR n lo hi ∧ clampR n lo hi ≤ hi :=
  ⟨le_max_left _ _, max_le h (min_le_left _ _)⟩

/-- Claim C7: `applyAim` succeeds only when the socket is bound to an
existing room whose phase is `aiming` and whose active slot equals the
caller's slot, and on success the room stored back in the registry is
`applyAimRoom` of the old one; `applyAimRoom` writes the clamped angle
(into [5, 175]) and clamped power (into [20, 120]) onto the caller's tank
and changes nothing else of the snapshot; on any rejection (unbound
socket, missing room, wrong phase, or not the active slot) `applyAim`
returns no room and the manager state — hence every stored snapshot,
including both tanks' aim values — is completely unchanged. -/
theorem applyAim_spec (m : ManagerState) (socketId : String) (a p : ℝ) :
    ((applyAim m socketId a p).2 = none → (applyAim m socketId a p).1 = m) ∧
    (∀ room1, (applyAim m socketId a p).2 = some room1 →
      ∃ info room0,
        mapGet m.bindings socketId = some info ∧
        mapGet m.rooms info.roomCode = some room0 ∧
        room0.state.phase = GamePhase.aiming ∧
        room0.state.activeSlot = info.slot ∧
        room1 = applyAimRoom room0 info.slot a p ∧
        (applyAim m socketId a p).1 =
          { m with rooms := mapSet m.rooms info.roomCode room1 }) ∧
    (∀ room0 slot,
      ((applyAimRoom room0 slot a p).state.tanks slot).angleDeg = clampAngle a ∧
      ((applyAimRoom room0 slot a p).state.tanks slot).power = clampPower p ∧
      ((applyAimRoom room0 slot a p).state.tanks slot).hp = (room0.state.tanks slot).hp ∧
      (∀ s, s ≠ slot → (applyAimRoom room0 slot a p).state.tanks s = room0.state.tanks s) ∧
      (applyAimRoom room0 slot a p).state.phase = room0.state.phase ∧
      (applyAimRoom room0 slot a p).state.activeSlot = room0.state.activeSlot) ∧
    (MIN_ANGLE ≤ clampAngle a ∧ clampAngle a ≤ MAX_ANGLE ∧
      MIN_POWER ≤ clampPower p ∧ clampPower p ≤ MAX_POWER) := by
  have hroom : ∀ room0 slot,
      ((applyAimRoom room0 slot a p).state.tanks slot).angleDeg = clampAngle a ∧
      ((applyAimRoom room0 slot a p).state.tanks slot).power = clampPower p ∧
      ((applyAimRoom room0 slot a p).state.tanks slot).hp = (room0.state.tanks slot).hp ∧
      (∀ s, s ≠ slot → (applyAimRoom room0 slot a p).state.tanks s = room0.state.tanks s) ∧
      (applyAimRoom room0 slot a p).state.phase = room0.state.phase ∧
      (applyAimRoom room0 slot a p).state.activeSlot = room0.state.activeSlot := by
    intro room0 slot
    refine ⟨by simp [applyAimRoom], by simp [applyAimRoom], by simp [applyAimRoom],
      ?_, rfl, rfl⟩
    intro s hs
    simp [applyAimRoom, Function.update_apply, hs]
  have hclamp : MIN_ANGLE ≤ clampAngle a ∧ clampAngle a ≤ MAX_ANGLE ∧
      MIN_POWER ≤ clampPower p ∧ clampPower p ≤ MAX_POWER := by
    obtain ⟨ha1, ha2⟩ := clampR_mem a MIN_ANGLE MAX_ANGLE (by norm_num [MIN_ANGLE, MAX_ANGLE])
    obtain ⟨hp1, hp2⟩ := clampR_mem p MIN_POWER MAX_POWER (by norm_num [MIN_POWER, MAX_POWER])
    exact ⟨ha1, ha2, hp1, hp2⟩
  refine ⟨?_, ?_, hroom, hclamp⟩
  · intro hnone
    rcases hb : mapGet m.bindings socketId with _ | info
    · simp [applyAim, hb]
    · rcases hr : mapGet m.rooms info.roomCode with _ | room0
      · simp [applyAim, hb, hr]
      · by_cases hph : room0.state.phase = GamePhase.aiming
        · by_cases hsl : room0.state.activeSlot = info.slot
          · exfalso
            have he : (applyAim m socketId a p).2
                = some (applyAimRoom room0 info.slot a p) := by
              simp [applyAim, hb, hr, hph, hsl]
            rw [he] at hnone
            exact Option.some_ne_none _ hnone
          · simp [applyAim, hb, hr, hph, hsl]
        · simp [applyAim, hb, hr, hph]
  · intro room1 hsome
    rcases hb : mapGet m.bindings socketId with _ | info
    · simp [applyAim, hb] at hsome
    · rcases hr : mapGet m.rooms info.roomCode with _ | room0
      · simp [applyAim, hb, hr] at hsome
      · by_cases hph : room0.state.phase = GamePhase.aiming
        · by_cases hsl : room0.state.activeSlot = info.slot
          · have he : applyAim m socketId a p =
                ({ m with rooms :=
                    mapSet m.rooms info.roomCode (applyAimRoom room0 info.slot a p) },
                  some (applyAimRoom room0 info.slot a p)) := by
              simp [applyAim, hb, hr, hph, hsl]
            rw [he] at hsome
            replace hsome := Option.some.inj hsome
            refine ⟨info, room0, rfl, hr, hph, hsl, hsome.symm, ?_⟩
            rw [he, ← hsome]
          · simp [applyAim, hb, hr, hph, hsl] at hsome
        · simp [applyAim, hb, hr, hph] at hsome

/-- Witness for C7: on the concrete one-room manager, an unbound socket is
rejected with the registry unchanged, while the bound active player aiming
with angle 200 and power 999 succeeds and the stored values are the clamps
175 and 120. -/
theorem applyAim_spec_witness :
    (applyAim exAimManager "nosock" 90 80).2 = none ∧
    (applyAim exAimManager "nosock" 90 80).1 = exAimManager ∧
    (applyAim exAimManager "sock1" 200 999).2
      = some (applyAimRoom exAimRoom PlayerSlot.A 200 999) ∧
    (∃ info room0,
      mapGet exAimManager.bindings "sock1" = some info ∧
      mapGet exAimManager.rooms info.roomCode = some room0 ∧
      room0.state.phase = GamePhase.aiming ∧
      room0.state.activeSlot = info.slot ∧
      applyAimRoom exAimRoom PlayerSlot.A 200 999 = applyAimRoom room0 info.slot 200 999 ∧
      (applyAim exAimManager "sock1" 200 999).1 =
        { exAimManager with rooms := mapSet exAimManager.rooms info.roomCode (applyAimRoom exAimRoom PlayerSlot.A 200 999) }) ∧
    PlayerSlot.B ≠ PlayerSlot.A ∧
    (applyAimRoom exAimRoom PlayerSlot.A 200 999).state.tanks PlayerSlot.B
      = exAimRoom.state.tanks PlayerSlot.B ∧
    clampAngle 200 = 175 ∧ clampPower 999 = 120 := by
  have hnone : (applyAim exAimManager "nosock" 90 80).2 = none := rfl
  have hsome : (applyAim exAimManager "sock1" 200 999).2
      = some (applyAimRoom exAimRoom PlayerSlot.A 200 999) := rfl
  refine ⟨hnone, (applyAim_spec exAimManager "nosock" 90 80).1 hnone, hsome,
    (applyAim_spec exAimManager "sock1" 200 999).2.1 _ hsome, by decide,
    ((applyAim_spec exAimManager "sock1" 200 999).2.2.1 exAimRoom PlayerSlot.A).2.2.2.1
      PlayerSlot.B (by decide), ?_, ?_⟩
  · show clampR 200 MIN_ANGLE MAX_ANGLE = 175
    rw [clampR, MIN_ANGLE, MAX_ANGLE]
    norm_num
  · show clampR 999 MIN_POWER MAX_POWER = 120
    rw [clampR, MIN_POWER, MAX_POWER]
    norm_num

/-! ### Claim C9: room-code allocation in createRoom -/

/-- When a prefix matches nothing, searching the concatenation searches the
suffix. -/
theorem find?_append_of_none {α : Type} (q : α → Bool) :
    ∀ l1 l2 : List α, l1.find? q = none → (l1 ++ l2).find? q = l2.find? q := by
  intro l1 l2 h
  rw [List.find?_append, h, Option.none_or]

/-- When some entry of the association list carries the key, overwriting in
place makes the search return the fresh pair. -/
theorem find?_set_of_found {α : Type} (k : String) (v : α) :
    ∀ l : List (String × α), (l.find? (fun q => q.1 == k)).isSome = true →
      (l.map (fun q => if q.1 == k then (k, v) else q)).find? (fun q => q.1 == k)
        = some (k, v) := by
  intro l
  induction l with
  | nil => intro h; simp [List.find?] at h
  | cons hd tl ih =>
    intro h
    cases hq : (hd.1 == k) with
    | true =>
      rw [List.map_cons, if_pos hq]
      exact List.find?_cons_of_pos _ (by simp)
    | false =>
      have hneg : ¬((hd.1 == k) = true) := by rw [hq]; exact Bool.false_ne_true
      rw [List.map_cons, if_neg hneg]
      simp only [List.find?_cons, hq] at h ⊢
      exact ih h

/-- Reading an association list right after storing a value under a key
returns that value, whether the store overwrote or appended. -/
theorem mapGet_mapSet_self {α : Type} (l : List (String × α)) (k : String) (v : α) :
    mapGet (mapSet l k v) k = some v := by
  rw [mapGet, mapSet]
  split_ifs with hf
  · rw [find?_set_of_found k v l hf]
    rfl
  · have hn : l.find? (fun q => q.1 == k) = none := by
      cases hfind : l.find? (fun q => q.1 == k) with
      | none => rfl
      | some q => exfalso; rw [hfind] at hf; exact hf rfl
    rw [find?_append_of_none _ l [(k, v)] hn]
    simp

/-- With a constant-zero RNG every alphabet draw of the room-code generator
reads the first letter of the alphabet. -/
theorem drawChar_codeChars_zero : drawChar codeChars 'A' (0 : ℝ) = 'A' := by
  simp only [drawChar]
  split
  · have h0 : (jsFloor ((0 : ℝ) * (codeChars.length : ℝ))).toNat = 0 := by
      rw [zero_mul, jsFloor, Int.floor_zero]
      rfl
    simp only [h0]
    rfl
  · rfl

/-- With a constant-zero RNG every five-letter room-code draw is "AAAAA". -/
theorem randomCode_zero (idx : ℕ) : randomCode (fun _ => (0 : ℝ)) idx = "AAAAA" := by
  rw [randomCode]
  have h5 : List.range 5 = [0, 1, 2, 3, 4] := rfl
  rw [h5]
  simp only [List.map_cons, List.map_nil, drawChar_codeChars_zero]

/-- When every retry draw collides with the registry, the retry loop of
`createUniqueCode` falls through to the numeric fallback, consuming five
draws per retry and one more for the fallback. -/
theorem createUniqueCodeGo_stuck (codes : List String) (rng : ℕ → ℝ)
    (h : ∀ idx, codes.contains (randomCode rng idx) = true) :
    ∀ fuel idx, createUniqueCodeGo codes rng fuel idx
      = (padStart5 (toString (jsFloor (rng (idx + 5 * fuel) * 99999))), idx + 5 * fuel + 1) := by
  intro fuel
  induction fuel with
  | zero =>
    intro idx
    simp [createUniqueCodeGo]
  | succ n ih =>
    intro idx
    simp only [createUniqueCodeGo]
    rw [if_pos (h idx), ih (idx + 5)]
    have harith : idx + 5 + 5 * n = idx + 5 * (n + 1) := by ring
    rw [harith]

/-- When at least one of the retry draws is collision-free, the retry loop
of `createUniqueCode` returns a code absent from the registry. -/
theorem createUniqueCodeGo_free (codes : List String) (rng : ℕ → ℝ) :
    ∀ fuel idx,
      (∃ k, k < fuel ∧ codes.contains (randomCode rng (idx + 5 * k)) = false) →
      codes.contains (createUniqueCodeGo codes rng fuel idx).1 = false := by
  intro fuel
  induction fuel with
  | zero =>
    intro idx hex
    obtain ⟨k, hk, _⟩ := hex
    exact absurd hk (Nat.not_lt_zero k)
  | succ n ih =>
    intro idx hex
    obtain ⟨k, hk, hfree⟩ := hex
    simp only [createUniqueCodeGo]
    cases hc : codes.contains (randomCode rng idx) with
    | true =>
      rw [if_pos rfl]
      apply ih (idx + 5)
      rcases Nat.eq_zero_or_pos k with rfl | hkpos
      · simp only [Nat.mul_zero, Nat.add_zero] at hfree
        rw [hc] at hfree
        exact absurd hfree (by simp)
      · refine ⟨k - 1, by omega, ?_⟩
        have harith : idx + 5 + 5 * (k - 1) = idx + 5 * k := by omega
        rw [harith]
        exact hfree
    | false =>
      rw [if_neg Bool.false_ne_true]
      exact hc

/-- Claim C9 (amended): `createRoom` always succeeds: the creator gets slot
A, the result is not started, the fresh snapshot is in the lobby with no
turn deadline, slot A is occupied and its token is the issued reconnect
token, and the new registry stores the room under its code and binds the
creating socket to it; and the allocated code avoids every code present in
the post-detach registry provided at least one of the 1000 bounded retry
draws is collision-free — the numeric fallback alone is not checked
against the registry. -/
theorem createRoom_spec (m : ManagerState) (socketId : String) (now : ℝ) :
    ((createRoom m socketId now).2.slot = PlayerSlot.A ∧
      (createRoom m socketId now).2.started = false ∧
      (createRoom m socketId now).2.room.state.phase = GamePhase.lobby ∧
      (createRoom m socketId now).2.room.state.turnEndsAt = none ∧
      ((createRoom m socketId now).2.room.players PlayerSlot.A).isSome = true ∧
      (createRoom m socketId now).2.reconnectToken
        = roomTokenA (createRoom m socketId now).2.room) ∧
    (mapGet (createRoom m socketId now).1.rooms (createRoom m socketId now).2.room.code
        = some (createRoom m socketId now).2.room ∧
      mapGet (createRoom m socketId now).1.bindings socketId
        = some ⟨(createRoom m socketId now).2.room.code, PlayerSlot.A⟩) ∧
    ((∃ k, k < 1000 ∧
        ((leaveBySocketId m socketId now).rooms.map (fun p => p.1)).contains
          (randomCode (leaveBySocketId m socketId now).rng
            ((leaveBySocketId m socketId now).rngIdx + 5 * k)) = false) →
      ((leaveBySocketId m socketId now).rooms.map (fun p => p.1)).contains
        (createRoom m socketId now).2.room.code = false) := by
  refine ⟨⟨rfl, rfl, rfl, rfl, rfl, rfl⟩, ⟨?_, ?_⟩, ?_⟩
  · exact mapGet_mapSet_self _ _ _
  · exact mapGet_mapSet_self _ _ _
  · intro hfree
    exact createUniqueCodeGo_free _ _ 1000 _ hfree

/-- Witness for C9 on the empty registry with a constant-zero manager RNG:
the very first retry draw (k = 0) is collision-free, so the created room's
code avoids the (empty) registry, the creator sits in slot A and the
snapshot starts in the lobby. -/
theorem createRoom_spec_witness :
    ((0 : ℕ) < 1000 ∧
      ((leaveBySocketId exEmptyManager "sockw" 0).rooms.map (fun p => p.1)).contains
        (randomCode (leaveBySocketId exEmptyManager "sockw" 0).rng
          ((leaveBySocketId exEmptyManager "sockw" 0).rngIdx + 5 * 0)) = false) ∧
    ((leaveBySocketId exEmptyManager "sockw" 0).rooms.map (fun p => p.1)).contains
      (createRoom exEmptyManager "sockw" 0).2.room.code = false ∧
    (createRoom exEmptyManager "sockw" 0).2.slot = PlayerSlot.A ∧
    (createRoom exEmptyManager "sockw" 0).2.room.state.phase = GamePhase.lobby := by
  have hfree : ((leaveBySocketId exEmptyManager "sockw" 0).rooms.map (fun p => p.1)).contains
      (randomCode (leaveBySocketId exEmptyManager "sockw" 0).rng
        ((leaveBySocketId exEmptyManager "sockw" 0).rngIdx + 5 * 0)) = false := rfl
  exact ⟨⟨by norm_num, hfree⟩,
    (createRoom_spec exEmptyManager "sockw" 0).2.2 ⟨0, by norm_num, hfree⟩,
    (createRoom_spec exEmptyManager "sockw" 0).1.1,
    (createRoom_spec exEmptyManager "sockw" 0).1.2.2.1⟩

/-- Counterexample to C9 as stated: in a registry already holding rooms
under the codes "AAAAA" and "00000", with the manager RNG constantly
drawing 0, every one of the 1000 retries draws the colliding code "AAAAA",
and the numeric fallback — which is not collision-checked — then allocates
"00000", a code equal to that of a room already present in the registry
(which the subsequent store silently overwrites). -/
theorem createRoom_counterexample :
    (createRoom exBusyManager "sock9" 0).2.room.code = "00000" ∧
    (exBusyManager.rooms.map (fun p => p.1)).contains
      (createRoom exBusyManager "sock9" 0).2.room.code = true := by
  have hrand : ∀ idx, ((exBusyManager.rooms.map (fun p => p.1)).contains
      (randomCode (fun _ => (0 : ℝ)) idx)) = true := by
    intro idx
    rw [randomCode_zero idx]
    rfl
  have hgo := createUniqueCodeGo_stuck (exBusyManager.rooms.map (fun p => p.1))
    (fun _ => (0 : ℝ)) hrand 1000 0
  have hcode : (createRoom exBusyManager "sock9" 0).2.room.code
      = (createUniqueCodeGo (exBusyManager.rooms.map (fun p => p.1))
          (fun _ => (0 : ℝ)) 1000 0).1 := rfl
  have hfb : (createUniqueCodeGo (exBusyManager.rooms.map (fun p => p.1))
      (fun _ => (0 : ℝ)) 1000 0).1 = "00000" := by
    rw [hgo]
    show padStart5 (toString (jsFloor ((0 : ℝ) * 99999))) = "00000"
    rw [zero_mul, jsFloor, Int.floor_zero]
    rfl
  refine ⟨?_, ?_⟩
  · rw [hcode, hfb]
  · rw [hcode, hfb]
    rfl

/-- Witness for C10 at a 3-column terrain read far past the right edge. -/
theorem heightAt_total_witness :
    1 ≤ exTerrain.width ∧ (exTerrain.width : ℝ) - 1 ≤ 10 ∧
    (0 ≤ clampI (jsRound 10) 0 ((exTerrain.width : ℤ) - 1) ∧
      clampI (jsRound 10) 0 ((exTerrain.width : ℤ) - 1) ≤ (exTerrain.width : ℤ) - 1) ∧
    heightAt exTerrain 10 = exTerrain.heights.getD (exTerrain.width - 1) exTerrain.height :=
  ⟨by norm_num [exTerrain],
   by norm_num [exTerrain],
   (heightAt_total exTerrain 10).2.1 (by norm_num [exTerrain]),
   (heightAt_total exTerrain 10).2.2 (by norm_num [exTerrain])⟩

end SE
